import Mathlib

deriving instance DecidableEq for Except

/-!
Shallow embedding of the `refficiency` finance-bot repository, covering the
transaction/category data model (`src/models`), the command handler core
(`src/handlers/catat.py`) and the spreadsheet store
(`src/services/gsheets.py`).  Python values that flow through the store are
modelled explicitly (`PyVal`), spreadsheet cells hold either a string or a
number (`Cell`, numbers as `ℚ`; the Python code only ever adds and subtracts
exactly-representable values, so rationals are a faithful model of the float
arithmetic exercised here), and the gspread API surface used by the code is
modelled as explicit state passing over a `Spreadsheet` value.
-/

namespace Reff

/-! ## Python primitive modelling -/

/-- A cell of the backing spreadsheet: either a string or a number
(gspread stores the Python floats written by the dashboard code as numbers). -/
inductive Cell where
  | str (s : String)
  | num (q : ℚ)
deriving DecidableEq, Repr, Inhabited

/-- A Python value occurring in the transaction dictionaries handed to
`GoogleSheetsService.add_transaction` (strings, ints, `None`). -/
inductive PyVal where
  | str (s : String)
  | int (n : Int)
  | none
deriving DecidableEq, Repr

/-- Python `str(v)`. -/
def PyVal.pyStr : PyVal → String
  | .str s => s
  | .int n => toString n
  | .none => "None"

/-- Python truthiness of the values above (`""`, `0` and `None` are falsy). -/
def PyVal.truthy : PyVal → Bool
  | .str s => s ≠ ""
  | .int n => n ≠ 0
  | .none => false

/-- Split a character list on a separator character (Python
`str.split(sep)` with a one-character separator: consecutive separators
produce empty fields). -/
def splitOnChar (sep : Char) : List Char → List (List Char)
  | [] => [[]]
  | c :: cs =>
    match splitOnChar sep cs with
    | [] => [[c]]
    | h :: t => if c = sep then [] :: h :: t else (c :: h) :: t

/-- Python `str.split(sep)` for a one-character separator. -/
def pySplit (s : String) (sep : Char) : List String :=
  (splitOnChar sep s.toList).map String.mk

/-- Python `c in s` membership of a character in a string. -/
def pyContains (s : String) (c : Char) : Bool := s.toList.contains c

/-- Strip leading and trailing whitespace from a character list. -/
def stripWS (cs : List Char) : List Char :=
  ((cs.dropWhile Char.isWhitespace).reverse.dropWhile Char.isWhitespace).reverse

/-- Python `str.strip()` (on the whitespace characters this code meets). -/
def pyStrip (s : String) : String := String.mk (stripWS s.toList)

/-- Auxiliary scanner for a run of decimal digits with Python's underscore
rule (single underscores are allowed between digits).  Accumulates the value
and the number of digits consumed. -/
def digitsValAux : Nat → Nat → List Char → Option (Nat × Nat)
  | acc, len, [] => some (acc, len)
  | acc, len, '_' :: c :: cs =>
    if c.isDigit then digitsValAux (acc * 10 + (c.toNat - 48)) (len + 1) cs else Option.none
  | acc, len, c :: cs =>
    if c.isDigit then digitsValAux (acc * 10 + (c.toNat - 48)) (len + 1) cs else Option.none

/-- Value and digit count of a nonempty digit run (underscores permitted
between digits, as in Python numeric literals accepted by `int`/`float`). -/
def digitsVal? : List Char → Option (Nat × Nat)
  | [] => Option.none
  | c :: cs => if c.isDigit then digitsValAux (c.toNat - 48) 1 cs else Option.none

/-- Model of Python `int(s)` on ASCII input: surrounding whitespace is
stripped, an optional sign is allowed, then a digit run.  Returns `none`
where Python raises `ValueError`. -/
def pyInt? (s : String) : Option Int :=
  match stripWS s.toList with
  | '+' :: rest => (digitsVal? rest).map fun p => (p.1 : Int)
  | '-' :: rest => (digitsVal? rest).map fun p => -(p.1 : Int)
  | rest => (digitsVal? rest).map fun p => (p.1 : Int)

/-- Unsigned decimal literal with an optional single dot, as accepted by
Python `float` (exponents, `inf` and `nan` are outside the fragment this
code base ever feeds to `float`). -/
def pyUFloat? (cs : List Char) : Option ℚ :=
  match splitOnChar '.' cs with
  | [ip] => (digitsVal? ip).map fun p => (p.1 : ℚ)
  | [ip, fp] =>
    match ip, fp with
    | [], [] => Option.none
    | [], _ => (digitsVal? fp).map fun p => (p.1 : ℚ) / (10 : ℚ) ^ p.2
    | _, [] => (digitsVal? ip).map fun p => (p.1 : ℚ)
    | _, _ => do
      let i ← digitsVal? ip
      let f ← digitsVal? fp
      pure ((i.1 : ℚ) + (f.1 : ℚ) / (10 : ℚ) ^ f.2)
  | _ => Option.none

/-- Model of Python `float(s)` on the decimal fragment: strip whitespace,
optional sign, digits with at most one dot. -/
def pyFloat? (s : String) : Option ℚ :=
  match stripWS s.toList with
  | '+' :: rest => pyUFloat? rest
  | '-' :: rest => (pyUFloat? rest).map Neg.neg
  | rest => pyUFloat? rest

/-- Python `str.lower()` on the ASCII fragment this code base handles. -/
def pyLower (s : String) : String := String.mk (s.toList.map Char.toLower)

/-- Python `str.isdigit()` restricted to ASCII: nonempty and all digits. -/
def pyIsdigit (s : String) : Bool :=
  s ≠ "" && s.toList.all Char.isDigit

/-- Python `s.replace(",", "")`. -/
def stripCommas (s : String) : String :=
  String.mk (s.toList.filter (· ≠ ','))

/-! ## Category model (`src/models/category.py`) -/

/-- The closed `TransactionCategory` enumeration. -/
inductive TransactionCategory where
  | SALARY | FREELANCE | INVESTMENT | BUSINESS | BONUS | OTHER_INCOME
  | FOOD_DINING | TRANSPORTATION | HEALTHCARE | UTILITIES | ENTERTAINMENT
  | SHOPPING_CLOTHING | ELECTRONICS | EDUCATION | INSURANCE | RENT_MORTGAGE
  | GROCERIES | TRAVEL | SUBSCRIPTIONS | OTHER_EXPENSE
deriving DecidableEq, Repr

namespace TransactionCategory

/-- The `.value` string of each enum member. -/
def value : TransactionCategory → String
  | SALARY => "salary"
  | FREELANCE => "freelance"
  | INVESTMENT => "investment"
  | BUSINESS => "business"
  | BONUS => "bonus"
  | OTHER_INCOME => "other_income"
  | FOOD_DINING => "food_dining"
  | TRANSPORTATION => "transportation"
  | HEALTHCARE => "healthcare"
  | UTILITIES => "utilities"
  | ENTERTAINMENT => "entertainment"
  | SHOPPING_CLOTHING => "shopping_clothing"
  | ELECTRONICS => "electronics"
  | EDUCATION => "education"
  | INSURANCE => "insurance"
  | RENT_MORTGAGE => "rent_mortgage"
  | GROCERIES => "groceries"
  | TRAVEL => "travel"
  | SUBSCRIPTIONS => "subscriptions"
  | OTHER_EXPENSE => "other_expense"

/-- Enum members in declaration order (Python `for cat in TransactionCategory`). -/
def allMembers : List TransactionCategory :=
  [SALARY, FREELANCE, INVESTMENT, BUSINESS, BONUS, OTHER_INCOME,
   FOOD_DINING, TRANSPORTATION, HEALTHCARE, UTILITIES, ENTERTAINMENT,
   SHOPPING_CLOTHING, ELECTRONICS, EDUCATION, INSURANCE, RENT_MORTGAGE,
   GROCERIES, TRAVEL, SUBSCRIPTIONS, OTHER_EXPENSE]

/-- `get_category_mapping`: the Indonesian keyword table, in the insertion
order of the Python dict literal (which is its iteration order). -/
def get_category_mapping : List (String × TransactionCategory) :=
  [("makan", FOOD_DINING), ("makanan", FOOD_DINING), ("restoran", FOOD_DINING),
   ("cafe", FOOD_DINING), ("snack", FOOD_DINING), ("minuman", FOOD_DINING),
   ("bensin", TRANSPORTATION), ("transportasi", TRANSPORTATION),
   ("ojek", TRANSPORTATION), ("taksi", TRANSPORTATION), ("bus", TRANSPORTATION),
   ("kereta", TRANSPORTATION), ("parkir", TRANSPORTATION),
   ("laptop", ELECTRONICS), ("hp", ELECTRONICS), ("handphone", ELECTRONICS),
   ("komputer", ELECTRONICS), ("tv", ELECTRONICS), ("elektronik", ELECTRONICS),
   ("baju", SHOPPING_CLOTHING), ("celana", SHOPPING_CLOTHING),
   ("sepatu", SHOPPING_CLOTHING), ("tas", SHOPPING_CLOTHING),
   ("pakaian", SHOPPING_CLOTHING),
   ("gaji", SALARY), ("freelance", FREELANCE), ("bonus", BONUS),
   ("investasi", INVESTMENT)]

/-- Boolean prefix test on character lists. -/
def listPrefixB : List Char → List Char → Bool
  | [], _ => true
  | _ :: _, [] => false
  | a :: as, b :: bs => a = b && listPrefixB as bs

/-- Boolean infix (contiguous substring) test on character lists. -/
def listInfixB (needle : List Char) : List Char → Bool
  | [] => listPrefixB needle []
  | hay@(_ :: rest) => listPrefixB needle hay || listInfixB needle rest

/-- Python `keyword in text_lower` (substring containment). -/
def containsSub (hay needle : String) : Bool :=
  listInfixB needle.toList hay.toList

/-- `categorize`: first keyword of the mapping contained in the lowercased
text wins; otherwise `OTHER_EXPENSE`. -/
def categorize (text : String) : TransactionCategory :=
  let text_lower := pyLower text
  match get_category_mapping.find? (fun kv => containsSub text_lower kv.1) with
  | some kv => kv.2
  | Option.none => OTHER_EXPENSE

end TransactionCategory

/-! ## Transaction model (`src/models/transaction.py`) -/

structure Transaction where
  tanggal : String
  jenis : String
  kategori : String
  jumlah : Int
  deskripsi : String
deriving DecidableEq, Repr

/-- `Transaction._validate_category` on the string case: keep an exact enum
value, otherwise map through `TransactionCategory.categorize` and take its
`.value`. -/
def validateCategory (kategori : String) : String :=
  if kategori ∈ TransactionCategory.allMembers.map TransactionCategory.value then
    kategori
  else
    (TransactionCategory.categorize kategori).value

/-- `Transaction.__init__` (category field is normalised at construction). -/
def Transaction.make (tanggal jenis kategori : String) (jumlah : Int)
    (deskripsi : String) : Transaction :=
  { tanggal := tanggal, jenis := jenis, kategori := validateCategory kategori,
    jumlah := jumlah, deskripsi := deskripsi }

/-- `Transaction.to_sheet_data` — note the English dictionary keys
("Changed from Tanggal" in the source). -/
def Transaction.to_sheet_data (t : Transaction) : List (String × PyVal) :=
  let pemasukan : PyVal := if pyLower t.jenis = "pemasukan" then .int t.jumlah else .str ""
  let pengeluaran : PyVal := if pyLower t.jenis = "pengeluaran" then .int t.jumlah else .str ""
  [("Date", .str t.tanggal), ("Category", .str t.kategori),
   ("Description", .str t.deskripsi), ("Income", pemasukan),
   ("Expenditure", pengeluaran)]

/-- `Transaction.validate`: raises `ValueError` (modelled as `.error`) unless
the kind is one of the two recognised strings (case-insensitively) and the
amount is strictly positive. -/
def Transaction.validate (t : Transaction) : Except String Unit :=
  if ¬ (pyLower t.jenis = "pemasukan" ∨ pyLower t.jenis = "pengeluaran") then
    .error "Jenis transaksi harus 'pemasukan' atau 'pengeluaran'"
  else if t.jumlah ≤ 0 then
    .error "Jumlah harus lebih dari 0"
  else
    .ok ()

/-! ## Date parsing (`datetime.strptime(_, "%Y-%m-%d")`)

CPython matches `%Y` as exactly four digits, `%m` as `1[0-2]|0[1-9]|[1-9]`
(one or two digits, value 1–12), `%d` as `3[01]|[12]\d|0[1-9]|[1-9]`
(one or two digits, value 1–31), requires the whole string to match, and
then validates the day against the month length. -/

/-- Split a character list on `-` separators. -/
def splitOnDash : List Char → List (List Char)
  | [] => [[]]
  | c :: cs =>
    match splitOnDash cs with
    | [] => [[c]]
    | h :: t => if c = '-' then [] :: h :: t else (c :: h) :: t

/-- Numeric value of a digit run (callers check `isDigit` first). -/
def natOfDigits (l : List Char) : Nat :=
  l.foldl (fun a c => a * 10 + (c.toNat - 48)) 0

/-- Gregorian leap year, as implemented by Python's `datetime`. -/
def isLeap (y : Nat) : Bool :=
  y % 4 = 0 && (y % 100 ≠ 0 || y % 400 = 0)

/-- Days in a month, as validated by Python's `datetime` constructor. -/
def daysInMonth (y m : Nat) : Nat :=
  if m = 2 then (if isLeap y then 29 else 28)
  else if m = 4 ∨ m = 6 ∨ m = 9 ∨ m = 11 then 30
  else 31

/-- `datetime.strptime(s, "%Y-%m-%d")`, returning `(year, month, day)` or
`none` where Python raises `ValueError`. -/
def parseDate (s : String) : Option (Nat × Nat × Nat) :=
  match splitOnDash s.toList with
  | [yp, mp, dp] =>
    if yp.length = 4 ∧ yp.all Char.isDigit ∧
       (mp.length = 1 ∨ mp.length = 2) ∧ mp.all Char.isDigit ∧
       (dp.length = 1 ∨ dp.length = 2) ∧ dp.all Char.isDigit then
      let y := natOfDigits yp
      let m := natOfDigits mp
      let d := natOfDigits dp
      if 1 ≤ y ∧ 1 ≤ m ∧ m ≤ 12 ∧ 1 ≤ d ∧ d ≤ daysInMonth y m then
        some (y, m, d)
      else Option.none
    else Option.none
  | _ => Option.none

/-- `GoogleSheetsService.get_sheet_name_from_date`: format the parsed date as
`f"{date_obj.month}/{str(date_obj.year)[2:]}"`, or `None` on parse failure. -/
def get_sheet_name_from_date (date_str : String) : Option String :=
  (parseDate date_str).map fun ymd => toString ymd.2.1 ++ "/" ++ (toString ymd.1).drop 2

/-! ## Spreadsheet state model -/

/-- The blank cell (gspread reports untouched cells as empty strings). -/
def emptyCell : Cell := .str ""

/-- A worksheet grid: the occupied rows, each a list of cells. -/
abbrev Grid := List (List Cell)

/-- Pad a list with `d` up to length `n`. -/
def padTo (l : List α) (n : Nat) (d : α) : List α :=
  l ++ List.replicate (n - l.length) d

/-- Write position `i` (0-based), padding with `d` as needed. -/
def setAt (l : List α) (i : Nat) (d v : α) : List α :=
  (padTo l (i + 1) d).set i v

/-- Read position `i` (0-based) with default `d`. -/
def getAt (l : List α) (i : Nat) (d : α) : α :=
  l.getD i d

/-- Read a cell at 1-based (row, column). -/
def getCell (g : Grid) (r c : Nat) : Cell :=
  getAt (getAt g (r - 1) []) (c - 1) emptyCell

/-- Write a cell at 1-based (row, column). -/
def setCell (g : Grid) (r c : Nat) (v : Cell) : Grid :=
  setAt g (r - 1) [] (setAt (getAt g (r - 1) []) (c - 1) emptyCell v)

/-- Write one payload row starting at (r, c). -/
def writeRow (g : Grid) (r c : Nat) : List Cell → Grid
  | [] => g
  | v :: vs => writeRow (setCell g r c v) r (c + 1) vs

/-- Write a rectangular payload with top-left corner (tr, tc) — the effect of
gspread `worksheet.update(range, values)`. -/
def rangeUpdate (g : Grid) (tr tc : Nat) : List (List Cell) → Grid
  | [] => g
  | row :: rows => rangeUpdate (writeRow g tr tc row) (tr + 1) tc rows

/-- 1-based column number of a single-letter column reference. -/
def colOf (c : Char) : Nat := c.toNat - 64

/-- Parse a single-letter A1 cell reference such as `B3` into (row, column). -/
def parseRef (ref : String) : Nat × Nat :=
  match ref.toList with
  | c :: ds => (natOfDigits ds, colOf c)
  | [] => (0, 0)

/-- Top-left corner of an A1 range such as `B3:D14` (or a single cell). -/
def rangeTopLeft (range : String) : Nat × Nat :=
  parseRef ((pySplit range ':').headD "")

/-- gspread `update(range, values)` on a grid. -/
def gridUpdate (g : Grid) (range : String) (values : List (List Cell)) : Grid :=
  rangeUpdate g (rangeTopLeft range).1 (rangeTopLeft range).2 values

/-- A worksheet: title plus grid. -/
structure Worksheet where
  title : String
  grid : Grid
deriving DecidableEq, Repr

/-- The spreadsheet: its worksheets in order. -/
structure Spreadsheet where
  sheets : List Worksheet
deriving DecidableEq, Repr

/-- `spreadsheet.worksheet(name)`: first worksheet with the given title
(`none` models the `WorksheetNotFound` exception). -/
def findWs (s : Spreadsheet) (name : String) : Option Worksheet :=
  s.sheets.find? (fun w => w.title = name)

/-- Apply `f` to the grid of the first worksheet with the given title. -/
def mapFirstWs (name : String) (f : Grid → Grid) : List Worksheet → List Worksheet
  | [] => []
  | w :: ws =>
    if w.title = name then { w with grid := f w.grid } :: ws
    else w :: mapFirstWs name f ws

/-- State-level gspread `update` through a worksheet handle held by title. -/
def wsUpdate (s : Spreadsheet) (name range : String) (values : List (List Cell)) :
    Spreadsheet :=
  ⟨mapFirstWs name (fun g => gridUpdate g range values) s.sheets⟩

/-- State-level gspread `append_row` through a worksheet handle. -/
def wsAppendRow (s : Spreadsheet) (name : String) (row : List Cell) : Spreadsheet :=
  ⟨mapFirstWs name (fun g => g ++ [row]) s.sheets⟩

/-- The string gspread's `.value` / `row_values` reports for a cell. -/
def cellStr : Cell → String
  | .str s => s
  | .num q => toString q

/-- Read a cell of the (first) `Dashboard` worksheet. -/
def dashCell (s : Spreadsheet) (r c : Nat) : Cell :=
  match findWs s "Dashboard" with
  | some w => getCell w.grid r c
  | Option.none => emptyCell

/-! ## Store operations (`src/services/gsheets.py`)

The gspread client can raise on any API call; the claims under study only
need failure injected at the mutating calls and at the `Dashboard` lookup,
so the embedding threads a `Faults` record naming those call sites.  The
connection itself is modelled as established (`ensure_connection` true);
`datetime.now().year` is passed in as the ambient parameter `cy`. -/

/-- Which modelled gspread API calls raise. -/
structure Faults where
  dashboardLookup : Bool
  monthlySummaryUpdate : Bool
  annualBatchUpdate : Bool
  topAnnualUpdate : Bool
  topMonthlyUpdate : Bool
  appendRow : Bool
deriving DecidableEq, Repr

/-- The fault-free environment. -/
def noFaults : Faults := ⟨false, false, false, false, false, false⟩

/-- Observable store calls recorded by `add_transaction`'s embedding. -/
inductive Ev where
  | appendRow (sheet : String) (row : List Cell)
  | updateDashboard
deriving DecidableEq, Repr

/-- The canonical header row. -/
def headerStrings : List String :=
  ["Tanggal", "Kategori", "Deskripsi", "Pemasukan", "Pengeluaran"]

/-- The canonical header row as cells. -/
def headerCells : List Cell := headerStrings.map Cell.str

/-- `GoogleSheetsService.get_or_create_sheet`: return the existing worksheet,
or create it and append the header row.  Returns the worksheet, the new
state, and the append events performed. -/
def get_or_create_sheet (s : Spreadsheet) (sheet_name : String) :
    Worksheet × Spreadsheet × List Ev :=
  match findWs s sheet_name with
  | some worksheet => (worksheet, s, [])
  | Option.none =>
    let worksheet : Worksheet := ⟨sheet_name, [headerCells]⟩
    (worksheet, ⟨s.sheets ++ [worksheet]⟩, [.appendRow sheet_name headerCells])

/-- `worksheet.row_values(1)` read through the state by sheet title. -/
def rowValues1 (s : Spreadsheet) (name : String) : List String :=
  match findWs s name with
  | some w => (getAt w.grid 0 []).map cellStr
  | Option.none => []

/-- Python `s.split(" ")[0]`. -/
def headSplit (s : String) : String := (pySplit s ' ').headD ""

/-- Python `dict.get(k)` on the transaction dictionary. -/
def dictGet (td : List (String × PyVal)) (k : String) : Option PyVal :=
  (td.find? (fun kv => kv.1 = k)).map (fun kv => kv.2)

/-- The row-building loop of `add_transaction`: start from blanks sized to
the headers, and place each dictionary value at its header's first index;
keys not in the headers are ignored; a `Tanggal` value containing a space is
truncated to its date part. -/
def buildRow (headers : List String) (td : List (String × PyVal)) : List String :=
  td.foldl
    (fun new_row kv =>
      if kv.1 ∈ headers then
        let index := (headers.findIdx? (fun h => h = kv.1)).getD 0
        let value :=
          if kv.1 = "Tanggal" ∧ kv.2.truthy ∧ (pyContains kv.2.pyStr ' ') then
            PyVal.str (headSplit kv.2.pyStr)
          else kv.2
        new_row.set index (match value with | .none => "" | v => v.pyStr)
      else new_row)
    (List.replicate headers.length "")

/-! ## Per-sheet aggregation -/

/-- The record-style cell access of gspread `get_all_records`: value under
header `k`, defaulting to `dflt` when the header is absent (short rows are
padded with blanks). -/
def recGet (headers : List String) (row : List Cell) (k dflt : String) : String :=
  match headers.findIdx? (fun h => h = k) with
  | some i => cellStr (getAt row i emptyCell)
  | Option.none => dflt

/-- Summary data returned by `_get_sheet_summary`. -/
structure SheetSummary where
  total_income : ℚ
  total_expenditure : ℚ
  net_difference : ℚ
  categories : List (String × ℚ)
deriving DecidableEq, Repr

/-- Python `categories.get(category, 0.0)`. -/
def assocGetD (m : List (String × ℚ)) (k : String) (d : ℚ) : ℚ :=
  ((m.find? (fun kv => kv.1 = k)).map (fun kv => kv.2)).getD d

/-- Python `categories[k] = categories.get(k, 0.0) + v`: update in place,
append when the key is new (dict insertion-order semantics). -/
def assocAdd (m : List (String × ℚ)) (k : String) (v : ℚ) : List (String × ℚ) :=
  match m with
  | [] => [(k, v)]
  | kv :: rest =>
    if kv.1 = k then (kv.1, kv.2 + v) :: rest else kv :: assocAdd rest k v

/-- One iteration of the `_get_sheet_summary` loop over a record. -/
def summaryStep (headers : List String) (acc : ℚ × ℚ × List (String × ℚ))
    (row : List Cell) : ℚ × ℚ × List (String × ℚ) :=
  let (total_income, total_expenditure, categories) := acc
  let income_val := recGet headers row "Pemasukan" ""
  let acc1 :=
    if income_val ≠ "" ∧ pyStrip income_val ≠ "" then
      match pyFloat? (stripCommas income_val) with
      | some q => (total_income + q, total_expenditure, categories)
      | Option.none => (total_income, total_expenditure, categories)
    else (total_income, total_expenditure, categories)
  let expenditure_val := recGet headers row "Pengeluaran" ""
  if expenditure_val ≠ "" ∧ pyStrip expenditure_val ≠ "" then
    match pyFloat? (stripCommas expenditure_val) with
    | some amount =>
      let category := recGet headers row "Kategori" "Uncategorized"
      (acc1.1, acc1.2.1 + amount, assocAdd acc1.2.2 category amount)
    | Option.none => acc1
  else acc1

/-- `GoogleSheetsService._get_sheet_summary`. -/
def get_sheet_summary (ws : Worksheet) : SheetSummary :=
  let headers := (getAt ws.grid 0 []).map cellStr
  let records := ws.grid.drop 1
  let r := records.foldl (summaryStep headers) (0, 0, [])
  { total_income := r.1, total_expenditure := r.2.1,
    net_difference := r.1 - r.2.1, categories := r.2.2 }

/-! ## Monthly sheet discovery -/

/-- Per-sheet data assembled by `get_monthly_sheets`. -/
structure MonthInfo where
  month : Int
  year : Int
  data : SheetSummary
deriving DecidableEq, Repr

/-- The per-worksheet body of the `get_monthly_sheets` loop: classify a
worksheet as a monthly sheet and summarise it, or skip it. -/
def classifySheet (ws : Worksheet) : Option MonthInfo :=
  if pyContains ws.title '/' ∧ pyLower ws.title ≠ "dashboard" then
    match pySplit ws.title '/' with
    | [month_str, year_str] => do
      let month_num ← pyInt? month_str
      let year_num ← pyInt? ("20" ++ year_str)
      pure ⟨month_num, year_num, get_sheet_summary ws⟩
    | _ => Option.none
  else Option.none

/-- Python dict assignment `d[k] = v` on an insertion-ordered association
list. -/
def assocSet (m : List (String × MonthInfo)) (k : String) (v : MonthInfo) :
    List (String × MonthInfo) :=
  match m with
  | [] => [(k, v)]
  | kv :: rest => if kv.1 = k then (k, v) :: rest else kv :: assocSet rest k v

/-- `GoogleSheetsService.get_monthly_sheets`: classify every worksheet,
keyed by title in encounter order. -/
def get_monthly_sheets (s : Spreadsheet) : List (String × MonthInfo) :=
  s.sheets.foldl
    (fun monthly_data ws =>
      match classifySheet ws with
      | some info => assocSet monthly_data ws.title info
      | Option.none => monthly_data)
    []

/-! ## Dashboard recompute -/

/-- The year-selector read shared by the three dashboard sub-steps:
`int(ts)` when cell C1 holds a digit string, else the current year. -/
def targetYear (cy : Int) (s : Spreadsheet) : Int :=
  let target_year_str := cellStr (dashCell s 1 3)
  if pyIsdigit target_year_str then (natOfDigits target_year_str.toList : Int) else cy

/-- The 12-row (income, expenditure, net) payload built by
`_update_monthly_summary`'s loop over `range(1, 13)`. -/
def monthlyPayload (target_year : Int) (monthly_data : List (String × MonthInfo)) :
    List (List Cell) :=
  (List.range 12).map fun i =>
    let month_num : Int := (i : Int) + 1
    match monthly_data.find? (fun kv =>
        kv.2.month = month_num ∧ kv.2.year = target_year) with
    | some kv =>
      [Cell.num kv.2.data.total_income, Cell.num kv.2.data.total_expenditure,
       Cell.num kv.2.data.net_difference]
    | Option.none => [Cell.str "", Cell.str "", Cell.str ""]

/-- `GoogleSheetsService._update_monthly_summary`: build the 12-row
(income, expenditure, net) payload for the selected year and batch it into
`B3:D14`.  Internal errors are caught and only logged, so the function's
effect on failure is simply the missing write. -/
def update_monthly_summary (cy : Int) (f : Faults) (s : Spreadsheet)
    (monthly_data : List (String × MonthInfo)) : Spreadsheet :=
  let target_year := targetYear cy s
  let update_payload := monthlyPayload target_year monthly_data
  if f.monthlySummaryUpdate then s
  else wsUpdate s "Dashboard" "B3:D14" update_payload

/-- `GoogleSheetsService._update_annual_totals`: sum the selected year's
incomes and expenditures and batch-write F3, F5, F7.  Failure is caught and
logged, leaving the cells unwritten. -/
def update_annual_totals (cy : Int) (f : Faults) (s : Spreadsheet)
    (monthly_data : List (String × MonthInfo)) : Spreadsheet :=
  let target_year := targetYear cy s
  let total_annual_income := monthly_data.foldl
    (fun acc kv => if kv.2.year = target_year then acc + kv.2.data.total_income else acc) 0
  let total_annual_expenditure := monthly_data.foldl
    (fun acc kv => if kv.2.year = target_year then acc + kv.2.data.total_expenditure else acc) 0
  let net_annual := total_annual_income - total_annual_expenditure
  if f.annualBatchUpdate then s
  else
    let s := wsUpdate s "Dashboard" "F3" [[Cell.num total_annual_income]]
    let s := wsUpdate s "Dashboard" "F5" [[Cell.num total_annual_expenditure]]
    wsUpdate s "Dashboard" "F7" [[Cell.num net_annual]]

/-- Month names recognised by `datetime.strptime(_, "%B")` (CPython matches
them case-insensitively). -/
def monthNames : List (String × Nat) :=
  [("january", 1), ("february", 2), ("march", 3), ("april", 4), ("may", 5),
   ("june", 6), ("july", 7), ("august", 8), ("september", 9), ("october", 10),
   ("november", 11), ("december", 12)]

/-- `datetime.strptime(name, "%B").month`, or `none` on `ValueError`. -/
def pyMonthName? (s : String) : Option Nat :=
  (monthNames.find? (fun kv => kv.1 = pyLower s)).map (fun kv => kv.2)

/-- Top-5 payload construction: a blank 5×2 payload overwritten by the
leading entries of the ranked list. -/
def top5Payload (top : List (String × ℚ)) : List (List Cell) :=
  (List.range 5).map fun i =>
    match top.get? i with
    | some ca => [Cell.str ca.1, Cell.num ca.2]
    | Option.none => [Cell.str "", Cell.str ""]

/-- Python `sorted(items, key=lambda item: item[1], reverse=True)`:
a stable descending sort by value. -/
def sortDescByVal (items : List (String × ℚ)) : List (String × ℚ) :=
  items.mergeSort (fun a b => decide (b.2 ≤ a.2))

/-- `GoogleSheetsService._update_top_expenditures`: write the annual top-5
table (B18:C22) and then the monthly top-5 table (B26:C30) for the month
selected in C24.  A raised error anywhere in the body aborts the rest of it
(both writes share one `try`), and is caught and only logged. -/
def update_top_expenditures (cy : Int) (f : Faults) (s : Spreadsheet)
    (monthly_data : List (String × MonthInfo)) : Spreadsheet :=
  let target_year := targetYear cy s
  let all_categories_annual := monthly_data.foldl
    (fun acc kv =>
      if kv.2.year = target_year then
        kv.2.data.categories.foldl (fun a ca => assocAdd a ca.1 ca.2) acc
      else acc)
    []
  let top_annual := (sortDescByVal all_categories_annual).take 5
  if f.topAnnualUpdate then s
  else
    let s := wsUpdate s "Dashboard" "B18:C22" (top5Payload top_annual)
    let target_month_str := cellStr (dashCell s 24 3)
    let target_month_num := pyMonthName? target_month_str
    let monthly_payload :=
      match target_month_num with
      | some m =>
        let monthly_categories :=
          match monthly_data.find? (fun kv =>
              kv.2.month = (m : Int) ∧ kv.2.year = target_year) with
          | some kv => kv.2.data.categories
          | Option.none => []
        top5Payload ((sortDescByVal monthly_categories).take 5)
      | Option.none => top5Payload []
    if f.topMonthlyUpdate then s
    else wsUpdate s "Dashboard" "B26:C30" monthly_payload

/-- `GoogleSheetsService.update_dashboard_data`: look up the dashboard,
collect the monthly summaries, and run the three update sub-steps; any
escaping error yields `False`, otherwise `True`.  (The sub-steps catch their
own errors, so only the dashboard lookup can abort the orchestration.) -/
def update_dashboard_data (cy : Int) (f : Faults) (s : Spreadsheet) :
    Bool × Spreadsheet :=
  if f.dashboardLookup then (false, s)
  else
    match findWs s "Dashboard" with
    | Option.none => (false, s)
    | some _ =>
      let monthly_sheets_data := get_monthly_sheets s
      let s := update_monthly_summary cy f s monthly_sheets_data
      let s := update_annual_totals cy f s monthly_sheets_data
      let s := update_top_expenditures cy f s monthly_sheets_data
      (true, s)

/-! ## Appending a transaction -/

/-- `GoogleSheetsService.add_transaction`: resolve the monthly sheet from the
`Tanggal` entry, get-or-create it, rebuild the row against the live header
row, append it, and trigger the dashboard recompute.  Returns the final
state, the recorded store calls, and the Python return (`True`) or the
raised error. -/
def add_transaction (cy : Int) (f : Faults) (transaction_data : List (String × PyVal))
    (s : Spreadsheet) : Spreadsheet × List Ev × Except String Bool :=
  match dictGet transaction_data "Tanggal" with
  | Option.none =>
    (s, [], .error "Transaction date ('Tanggal') not found in the provided data.")
  | some date_value =>
    if ¬ date_value.truthy then
      (s, [], .error "Transaction date ('Tanggal') not found in the provided data.")
    else
      match get_sheet_name_from_date (headSplit date_value.pyStr) with
      | Option.none =>
        (s, [], .error ("Invalid date format for transaction: '" ++ date_value.pyStr ++ "'"))
      | some sheet_name =>
        let (_, s, ev) := get_or_create_sheet s sheet_name
        let headers0 := rowValues1 s sheet_name
        let (headers, s, ev) :=
          if headers0 = [] then
            (headerStrings, wsAppendRow s sheet_name headerCells,
             ev ++ [.appendRow sheet_name headerCells])
          else (headers0, s, ev)
        let new_row := buildRow headers transaction_data
        if f.appendRow then (s, ev, .error "APIError")
        else
          let s := wsAppendRow s sheet_name (new_row.map Cell.str)
          let ev := ev ++ [.appendRow sheet_name (new_row.map Cell.str)]
          let s := (update_dashboard_data cy f s).2
          (s, ev ++ [.updateDashboard], .ok true)

/-! ## The `/catat` handler core (`src/handlers/catat.py`, lines 66–101)

The handler builds a `Transaction` from the parsed command arguments,
validates it, and only then converts and stores it; a `ValueError` from
validation (or any error from the store) is caught and turned into a reply
text.  The returned pair is (resulting spreadsheet, reply). -/
def catatCore (jenis_transaksi kategori : String) (jumlah : Int)
    (deskripsi tanggal_final : String) (cy : Int) (f : Faults)
    (s : Spreadsheet) : Spreadsheet × String :=
  let transaction :=
    Transaction.make tanggal_final jenis_transaksi kategori jumlah deskripsi
  match transaction.validate with
  | .error e => (s, "Error: " ++ e)
  | .ok _ =>
    let sheet_data := transaction.to_sheet_data
    match add_transaction cy f sheet_data s with
    | (s, _, .error e) => (s, "Terjadi error saat mencatat: " ++ e)
    | (s, _, .ok _) => (s, "✅ Berhasil dicatat")

/-! ## Specification-side definitions

The definitions below are written from the spec's words (well-formed
`YYYY-MM-DD` strings, recognised transaction kinds, the monthly-partition
name pattern); the theorems compare them with the source-derived
definitions above. -/

/-- The spec's abstract transaction kinds. -/
inductive Kind where
  | income | expense
deriving DecidableEq, Repr

/-- The kind denoted by a `jenis` string: the two recognised values are the
Indonesian words for income and expense, matched case-insensitively. -/
def kindOf? (jenis : String) : Option Kind :=
  if pyLower jenis = "pemasukan" then some .income
  else if pyLower jenis = "pengeluaran" then some .expense
  else Option.none

/-- Well-formedness of a character list as a strict `YYYY-MM-DD` date:
four digits, dash, two digits, dash, two digits, with a valid calendar
date (year ≥ 1, month 1–12, day within the month). -/
def wellFormedL : List Char → Bool
  | [y1, y2, y3, y4, '-', m1, m2, '-', d1, d2] =>
    ([y1, y2, y3, y4].all Char.isDigit && [m1, m2].all Char.isDigit &&
     [d1, d2].all Char.isDigit) &&
    (let y := natOfDigits [y1, y2, y3, y4]
     let m := natOfDigits [m1, m2]
     let d := natOfDigits [d1, d2]
     decide (1 ≤ y ∧ 1 ≤ m ∧ m ≤ 12 ∧ 1 ≤ d ∧ d ≤ daysInMonth y m))
  | _ => false

/-- A well-formed `YYYY-MM-DD` date string (the spec's sense). -/
def wellFormedYMD (s : String) : Bool := wellFormedL s.toList

/-- Year denoted by the first four characters of a `YYYY-MM-DD` string. -/
def yearOfYMD (s : String) : Nat := natOfDigits (s.toList.take 4)

/-- Month denoted by characters 5–6 of a `YYYY-MM-DD` string. -/
def monthOfYMD (s : String) : Nat := natOfDigits ((s.toList.drop 5).take 2)

/-- The classification predicate claimed for `get_monthly_sheets`: title
contains `/`, lowercased title is not `dashboard`, and both `/`-separated
parts parse as Python integers. -/
def claimMonthly (t : String) : Bool :=
  pyContains t '/' && (pyLower t ≠ "dashboard") &&
  (match pySplit t '/' with
   | [m, y] => (pyInt? m).isSome && (pyInt? y).isSome
   | _ => false)

/-- The classification the code actually implements: as `claimMonthly`,
except that the year condition is that `"20" ++ second part` parses (so a
signed or space-padded second part is rejected even though it parses as an
integer on its own). -/
def amendedMonthly (t : String) : Bool :=
  pyContains t '/' && (pyLower t ≠ "dashboard") &&
  (match pySplit t '/' with
   | [m, y] => (pyInt? m).isSome && (pyInt? ("20" ++ y)).isSome
   | _ => false)

/-- The spec's per-cell contribution to an amount total: a blank cell
contributes 0; otherwise the cell parses as a number after stripping commas,
or contributes 0 when it fails to parse. -/
def cellContribution (v : String) : ℚ :=
  if pyStrip v = "" then 0 else (pyFloat? (stripCommas v)).getD 0

/-- Contribution of a record's `Pemasukan` cell. -/
def rowIncome (headers : List String) (row : List Cell) : ℚ :=
  cellContribution (recGet headers row "Pemasukan" "")

/-- Contribution of a record's `Pengeluaran` cell. -/
def rowExpense (headers : List String) (row : List Cell) : ℚ :=
  cellContribution (recGet headers row "Pengeluaran" "")

/-- A record's category, defaulting like the code does. -/
def rowCategory (headers : List String) (row : List Cell) : String :=
  recGet headers row "Kategori" "Uncategorized"

/-- The spec's worked summary example: expense cells
`["50000", "bad", "", "25,000"]` under category `food`. -/
def foodGrid : Grid :=
  headerCells ::
  [[Cell.str "2025-06-01", Cell.str "food", Cell.str "-", Cell.str "", Cell.str "50000"],
   [Cell.str "2025-06-02", Cell.str "food", Cell.str "-", Cell.str "", Cell.str "bad"],
   [Cell.str "2025-06-03", Cell.str "food", Cell.str "-", Cell.str "", Cell.str ""],
   [Cell.str "2025-06-04", Cell.str "food", Cell.str "-", Cell.str "", Cell.str "25,000"]]

/-- A well-formed transaction dictionary with the Indonesian keys the store
expects (used to exercise the successful write path). -/
def tdSample : List (String × PyVal) :=
  [("Tanggal", .str "2025-06-10"), ("Kategori", .str "transportation"),
   ("Deskripsi", .str "-"), ("Pemasukan", .str ""), ("Pengeluaran", .int 150000)]

/-- A minimal dashboard grid with the year selector C1 set to 2025. -/
def dashGrid : Grid := [[Cell.str "Financial Dashboard Summary", Cell.str "", Cell.str "2025"]]

/-- A spreadsheet holding only the dashboard. -/
def sSample : Spreadsheet := ⟨[⟨"Dashboard", dashGrid⟩]⟩

/-- A spreadsheet with the dashboard and one populated monthly partition. -/
def sC2 : Spreadsheet := ⟨[⟨"Dashboard", dashGrid⟩, ⟨"6/25", foodGrid⟩]⟩

/-- The environment where the monthly-summary batch write raises. -/
def faultMonthly : Faults := ⟨false, true, false, false, false, false⟩

/-- The environment where the transaction-row append raises. -/
def faultAppend : Faults := ⟨false, false, false, false, false, true⟩

/-! ## Assignment-list view of grid writes

The batched dashboard writes are sequences of single-cell overwrites;
`applyCells` makes that explicit, which is what the idempotence argument
runs on. -/

/-- Apply a list of 1-based single-cell writes in order. -/
def applyCells (a : List (Nat × Nat × Cell)) (g : Grid) : Grid :=
  a.foldl (fun g x => setCell g x.1 x.2.1 x.2.2) g

/-- The cell writes of one payload row starting at (r, c). -/
def rowAsg (r c : Nat) : List Cell → List (Nat × Nat × Cell)
  | [] => []
  | v :: vs => (r, c, v) :: rowAsg r (c + 1) vs

/-- The cell writes of a rectangular payload with top-left (tr, tc). -/
def rangeAsg (tr tc : Nat) : List (List Cell) → List (Nat × Nat × Cell)
  | [] => []
  | row :: rows => rowAsg tr tc row ++ rangeAsg (tr + 1) tc rows

/-- Coordinates touched by a write list. -/
def coordsOf (a : List (Nat × Nat × Cell)) : List (Nat × Nat) :=
  a.map (fun x => (x.1, x.2.1))

/-- Two 1-based coordinates address different cells (compared through the
0-based indices the grid primitives use). -/
def cellDisj (p q : Nat × Nat) : Prop :=
  p.1 - 1 ≠ q.1 - 1 ∨ p.2 - 1 ≠ q.2 - 1

/-! ## Normal form of one dashboard recompute pass -/

/-- `total_annual_income` as computed by `_update_annual_totals`. -/
def annTAI (ty : Int) (md : List (String × MonthInfo)) : ℚ :=
  md.foldl (fun acc kv => if kv.2.year = ty then acc + kv.2.data.total_income else acc) 0

/-- `total_annual_expenditure` as computed by `_update_annual_totals`. -/
def annTAE (ty : Int) (md : List (String × MonthInfo)) : ℚ :=
  md.foldl (fun acc kv => if kv.2.year = ty then acc + kv.2.data.total_expenditure else acc) 0

/-- `all_categories_annual` as computed by `_update_top_expenditures`. -/
def annCats (ty : Int) (md : List (String × MonthInfo)) : List (String × ℚ) :=
  md.foldl
    (fun acc kv =>
      if kv.2.year = ty then
        kv.2.data.categories.foldl (fun a ca => assocAdd a ca.1 ca.2) acc
      else acc)
    []

/-- The `B26:C30` payload of `_update_top_expenditures`, as a function of the
string read from `C24`. -/
def monTop (ty : Int) (md : List (String × MonthInfo)) (mstr : String) :
    List (List Cell) :=
  match pyMonthName? mstr with
  | some m =>
    let monthly_categories :=
      match md.find? (fun kv => kv.2.month = (m : Int) ∧ kv.2.year = ty) with
      | some kv => kv.2.data.categories
      | Option.none => []
    top5Payload ((sortDescByVal monthly_categories).take 5)
  | Option.none => top5Payload []

/-- The six dashboard writes of one fault-free recompute, with every input the
sub-steps read (target year, monthly data, `C24` month) passed explicitly. -/
def dashWrite (ty : Int) (md : List (String × MonthInfo)) (c24 : String)
    (s : Spreadsheet) : Spreadsheet :=
  wsUpdate (wsUpdate (wsUpdate (wsUpdate (wsUpdate (wsUpdate s
    "Dashboard" "B3:D14" (monthlyPayload ty md))
    "Dashboard" "F3" [[Cell.num (annTAI ty md)]])
    "Dashboard" "F5" [[Cell.num (annTAE ty md)]])
    "Dashboard" "F7" [[Cell.num (annTAI ty md - annTAE ty md)]])
    "Dashboard" "B18:C22" (top5Payload ((sortDescByVal (annCats ty md)).take 5)))
    "Dashboard" "B26:C30" (monTop ty md c24)

/-- One fault-free recompute pass in normal form: all reads resolved against
the starting state (legitimate because no write row reaches `C1` or `C24`). -/
def dashPass (cy : Int) (s : Spreadsheet) : Spreadsheet :=
  dashWrite (targetYear cy s) (get_monthly_sheets s) (cellStr (dashCell s 24 3)) s

/-- The grid effect of the six dashboard writes of one recompute pass. -/
def gridDash (P1 P5 P6 : List (List Cell)) (x2 x3 x4 : Cell) (g : Grid) : Grid :=
  gridUpdate (gridUpdate (gridUpdate (gridUpdate (gridUpdate (gridUpdate g
    "B3:D14" P1) "F3" [[x2]]) "F5" [[x3]]) "F7" [[x4]]) "B18:C22" P5) "B26:C30" P6

/-! ## Decimal rendering of naturals

`str(year)` in Python and `toString : Nat → String` in this embedding both
produce the plain decimal numeral; `decDigits` is a structurally recursive
presentation of that numeral used to reason about `String.drop`. -/

/-- Decimal digit characters of `n`, most significant first. -/
def decDigits (n : Nat) : List Char :=
  if _h : n < 10 then [Nat.digitChar n]
  else decDigits (n / 10) ++ [Nat.digitChar (n % 10)]
decreasing_by exact Nat.div_lt_self (by omega) (by omega)

theorem decDigits_ge (n : Nat) (hn : ¬ n < 10) :
    decDigits n = decDigits (n / 10) ++ [Nat.digitChar (n % 10)] := by
  rw [decDigits, dif_neg hn]

theorem decDigits_lt (n : Nat) (hn : n < 10) : decDigits n = [Nat.digitChar n] := by
  rw [decDigits, dif_pos hn]

theorem toDigitsCore_eq_decDigits :
    ∀ (fuel n : Nat) (ds : List Char), n < fuel →
      Nat.toDigitsCore 10 fuel n ds = decDigits n ++ ds := by
  intro fuel
  induction fuel with
  | zero => intro n ds h; omega
  | succ fuel ih =>
    intro n ds h
    show (if n / 10 = 0 then Nat.digitChar (n % 10) :: ds
          else Nat.toDigitsCore 10 fuel (n / 10) (Nat.digitChar (n % 10) :: ds))
        = decDigits n ++ ds
    by_cases h0 : n / 10 = 0
    · have hn : n < 10 := by omega
      rw [if_pos h0, decDigits_lt n hn, Nat.mod_eq_of_lt hn]
      rfl
    · have hn : ¬ n < 10 := by omega
      have hd : n / 10 < n := Nat.div_lt_self (by omega) (by omega)
      have hlt : n / 10 < fuel := by omega
      rw [if_neg h0, ih (n / 10) _ hlt, decDigits_ge n hn, List.append_assoc]
      rfl

theorem repr_eq_decDigits (n : Nat) : Nat.repr n = (decDigits n).asString := by
  show (Nat.toDigitsCore 10 (n + 1) n []).asString = (decDigits n).asString
  rw [toDigitsCore_eq_decDigits (n + 1) n [] (Nat.lt_succ_self n), List.append_nil]

theorem decDigits_four (y : Nat) (h1 : 1000 ≤ y) (h2 : y ≤ 9999) :
    decDigits y = [Nat.digitChar (y / 1000), Nat.digitChar (y / 100 % 10),
      Nat.digitChar (y / 10 % 10), Nat.digitChar (y % 10)] := by
  have e2 : y / 10 / 10 = y / 100 := by omega
  have e3 : y / 100 / 10 = y / 1000 := by omega
  rw [decDigits_ge y (by omega), decDigits_ge (y / 10) (by omega),
    e2, decDigits_ge (y / 100) (by omega), e3,
    decDigits_lt (y / 1000) (by omega)]
  simp

/-- The last two decimal digit characters of a year `y ≥ 1000`. -/
def lastTwoDigitsStr (y : Nat) : String :=
  String.mk [Nat.digitChar (y / 10 % 10), Nat.digitChar (y % 10)]

theorem repr_drop_two (y : Nat) (h1 : 1000 ≤ y) (h2 : y ≤ 9999) :
    (Nat.repr y).drop 2 = lastTwoDigitsStr y := by
  rw [repr_eq_decDigits, decDigits_four y h1 h2]
  show (String.mk _).drop 2 = _
  rw [String.drop_eq]
  rfl

/-! ## Grid primitive lemmas -/

theorem length_padTo (l : List α) (n : Nat) (d : α) :
    (padTo l n d).length = max l.length n := by
  simp [padTo]
  omega

theorem length_setAt (l : List α) (i : Nat) (d v : α) :
    (setAt l i d v).length = max l.length (i + 1) := by
  simp [setAt, length_padTo]

theorem getElem?_padTo (l : List α) (n : Nat) (d : α) (k : Nat) :
    (padTo l n d)[k]? = if k < l.length then l[k]?
      else if k < n then some d else Option.none := by
  simp only [padTo, List.getElem?_append, List.getElem?_replicate]
  split_ifs <;> first | rfl | omega

theorem getElem?_setAt (l : List α) (i : Nat) (d v : α) (k : Nat) :
    (setAt l i d v)[k]? = if k = i then some v
      else if k < l.length then l[k]?
      else if k < i + 1 then some d else Option.none := by
  simp only [setAt, List.getElem?_set, getElem?_padTo, length_padTo]
  split_ifs <;> first | rfl | omega

theorem getAt_eq (l : List α) (k : Nat) (d : α) : getAt l k d = (l[k]?).getD d := by
  simp [getAt, List.getD]

theorem getAt_setAt_ne (l : List α) (i : Nat) (d v : α) (k : Nat) (h : k ≠ i) :
    getAt (setAt l i d v) k d = getAt l k d := by
  rw [getAt_eq, getAt_eq, getElem?_setAt, if_neg h]
  by_cases h3 : k < l.length
  · rw [if_pos h3]
  · rw [if_neg h3, List.getElem?_eq_none (by omega)]
    split <;> rfl

theorem getAt_setAt_eq (l : List α) (i : Nat) (d v : α) :
    getAt (setAt l i d v) i d = v := by
  rw [getAt_eq, getElem?_setAt, if_pos rfl]
  rfl

theorem setAt_setAt_same (l : List α) (i : Nat) (d v w : α) :
    setAt (setAt l i d v) i d w = setAt l i d w := by
  apply List.ext_getElem?
  intro k
  rw [getElem?_setAt, getElem?_setAt, getElem?_setAt, length_setAt]
  split_ifs <;> first | rfl | omega

theorem setAt_comm (l : List α) (i j : Nat) (d v w : α) (h : i ≠ j) :
    setAt (setAt l i d v) j d w = setAt (setAt l j d w) i d v := by
  apply List.ext_getElem?
  intro k
  rw [getElem?_setAt, getElem?_setAt, getElem?_setAt, getElem?_setAt,
    length_setAt, length_setAt]
  split_ifs <;> first | rfl | omega

theorem rowAt_setCell_ne (g : Grid) (r c : Nat) (v : Cell) (k : Nat) (h : k ≠ r - 1) :
    getAt (setCell g r c v) k [] = getAt g k [] := by
  unfold setCell
  rw [getAt_setAt_ne _ _ _ _ _ h]

theorem rowAt_setCell_eq (g : Grid) (r c : Nat) (v : Cell) :
    getAt (setCell g r c v) (r - 1) []
      = setAt (getAt g (r - 1) []) (c - 1) emptyCell v := by
  unfold setCell
  rw [getAt_setAt_eq]

theorem getCell_setCell_ne (g : Grid) (r c : Nat) (v : Cell) (r' c' : Nat)
    (h : r - 1 ≠ r' - 1 ∨ c - 1 ≠ c' - 1) :
    getCell (setCell g r c v) r' c' = getCell g r' c' := by
  by_cases hr : r - 1 = r' - 1
  · have hc : c - 1 ≠ c' - 1 := by
      rcases h with h | h
      · exact absurd hr h
      · exact h
    unfold getCell
    rw [← hr, rowAt_setCell_eq, getAt_setAt_ne _ _ _ _ _ (fun e => hc e.symm), hr]
  · unfold getCell
    rw [rowAt_setCell_ne _ _ _ _ _ (fun e => hr e.symm)]

theorem setCell_twice (g : Grid) (r c : Nat) (v w : Cell) :
    setCell (setCell g r c v) r c w = setCell g r c w := by
  show setAt (setCell g r c v) (r - 1) []
      (setAt (getAt (setCell g r c v) (r - 1) []) (c - 1) emptyCell w) = _
  rw [rowAt_setCell_eq, setAt_setAt_same]
  unfold setCell
  rw [setAt_setAt_same]

theorem setCell_comm (g : Grid) (r c r' c' : Nat) (v w : Cell)
    (h : r - 1 ≠ r' - 1 ∨ c - 1 ≠ c' - 1) :
    setCell (setCell g r c v) r' c' w = setCell (setCell g r' c' w) r c v := by
  by_cases hr : r - 1 = r' - 1
  · have hc : c - 1 ≠ c' - 1 := by
      rcases h with h | h
      · exact absurd hr h
      · exact h
    show setAt (setCell g r c v) (r' - 1) []
        (setAt (getAt (setCell g r c v) (r' - 1) []) (c' - 1) emptyCell w) = _
    rw [← hr, rowAt_setCell_eq]
    show _ = setAt (setCell g r' c' w) (r - 1) []
        (setAt (getAt (setCell g r' c' w) (r - 1) []) (c - 1) emptyCell v)
    rw [hr, rowAt_setCell_eq, ← hr]
    unfold setCell
    rw [hr, setAt_setAt_same, setAt_setAt_same, ← hr]
    rw [setAt_comm _ _ _ _ _ _ hc]
  · show setAt (setCell g r c v) (r' - 1) []
        (setAt (getAt (setCell g r c v) (r' - 1) []) (c' - 1) emptyCell w) = _
    rw [rowAt_setCell_ne _ _ _ _ _ (fun e => hr e.symm)]
    show _ = setAt (setCell g r' c' w) (r - 1) []
        (setAt (getAt (setCell g r' c' w) (r - 1) []) (c - 1) emptyCell v)
    rw [rowAt_setCell_ne _ _ _ _ _ hr]
    unfold setCell
    rw [setAt_comm _ _ _ _ _ _ hr]

/-! ## Lemmas on date-string parsing -/

theorem digit_ne_dash {c : Char} (h : c.isDigit = true) : c ≠ '-' := by
  intro hc; subst hc; exact Bool.noConfusion h

theorem no_dash_of_digits {l : List Char} (h : l.all Char.isDigit = true) : '-' ∉ l := by
  intro hm
  have hd := List.all_eq_true.mp h _ hm
  exact Bool.noConfusion hd

theorem splitOnDash_ne_nil (l : List Char) : splitOnDash l ≠ [] := by
  cases l with
  | nil => simp [splitOnDash]
  | cons c cs =>
    simp only [splitOnDash]
    cases splitOnDash cs with
    | nil => simp
    | cons a t => by_cases hc : c = '-' <;> simp [hc]

theorem splitOnDash_no_dash (xs : List Char) (h : '-' ∉ xs) : splitOnDash xs = [xs] := by
  induction xs with
  | nil => rfl
  | cons c cs ih =>
    have hc : ¬ c = '-' := fun e => h (by rw [e]; exact List.mem_cons_self '-' cs)
    rw [splitOnDash, ih (fun hm => h (List.mem_cons_of_mem c hm))]
    simp [hc]

theorem splitOnDash_append (xs ys : List Char) (h : '-' ∉ xs) :
    splitOnDash (xs ++ '-' :: ys) = xs :: splitOnDash ys := by
  induction xs with
  | nil =>
    show splitOnDash ('-' :: ys) = [] :: splitOnDash ys
    rw [splitOnDash]
    cases hsp : splitOnDash ys with
    | nil => exact absurd hsp (splitOnDash_ne_nil ys)
    | cons a t => simp
  | cons c cs ih =>
    have hc : ¬ c = '-' := fun e => h (by rw [e]; exact List.mem_cons_self '-' _)
    rw [List.cons_append, splitOnDash, ih (fun hm => h (List.mem_cons_of_mem c hm))]
    simp [hc]

theorem digit_toNat_bounds {c : Char} (h : c.isDigit = true) :
    48 ≤ c.toNat ∧ c.toNat ≤ 57 := by
  simp [Char.isDigit] at h
  exact ⟨h.1, h.2⟩

theorem wellFormedL_shape (l : List Char) (h : wellFormedL l = true) :
    ∃ y1 y2 y3 y4 m1 m2 d1 d2 : Char,
      l = [y1, y2, y3, y4, '-', m1, m2, '-', d1, d2] ∧
      y1.isDigit = true ∧ y2.isDigit = true ∧ y3.isDigit = true ∧ y4.isDigit = true ∧
      m1.isDigit = true ∧ m2.isDigit = true ∧ d1.isDigit = true ∧ d2.isDigit = true ∧
      1 ≤ natOfDigits [y1, y2, y3, y4] ∧
      1 ≤ natOfDigits [m1, m2] ∧ natOfDigits [m1, m2] ≤ 12 ∧
      1 ≤ natOfDigits [d1, d2] ∧
      natOfDigits [d1, d2]
        ≤ daysInMonth (natOfDigits [y1, y2, y3, y4]) (natOfDigits [m1, m2]) := by
  unfold wellFormedL at h
  split at h
  next y1 y2 y3 y4 m1 m2 d1 d2 =>
    simp only [List.all_cons, List.all_nil, Bool.and_eq_true, Bool.and_true,
      decide_eq_true_eq] at h
    exact ⟨y1, y2, y3, y4, m1, m2, d1, d2, rfl,
      h.1.1.1.1, h.1.1.1.2.1, h.1.1.1.2.2.1, h.1.1.1.2.2.2,
      h.1.1.2.1, h.1.1.2.2, h.1.2.1, h.1.2.2,
      h.2.1, h.2.2.1, h.2.2.2.1, h.2.2.2.2.1, h.2.2.2.2.2⟩
  next => exact Bool.noConfusion h

theorem natOfDigits_four (a b c d : Char) :
    natOfDigits [a, b, c, d]
      = (((a.toNat - 48) * 10 + (b.toNat - 48)) * 10 + (c.toNat - 48)) * 10
        + (d.toNat - 48) := by
  simp [natOfDigits, List.foldl]

/-! ## Claim C7 -/

/-- C7 (counterexample): the claim says `get_sheet_name_from_date` returns
`None` on every input that is not a well-formed `YYYY-MM-DD` string, but
`"2025-6-10"` (one-digit month, hence not of `YYYY-MM-DD` shape) is accepted
by the underlying `strptime("%Y-%m-%d")` parse and mapped to `"6/25"`. -/
theorem C7_partition_name_counterexample :
    wellFormedYMD "2025-6-10" = false ∧
    get_sheet_name_from_date "2025-6-10" = some "6/25" := by
  exact ⟨by decide, by decide⟩

/-- C7 (amended): every well-formed `YYYY-MM-DD` string with year ≥ 1000 is
mapped to `{month without leading zero}/{last two digits of the year}`
(e.g. `2025-06-10` → `6/25`, `2025-12-01` → `12/25`), and unparseable input
such as `"not-a-date"` yields `None`; however `strptime` also accepts
single-digit months/days (`"2025-6-10"` → `"6/25"`), and for years below
1000 the suffix is `str(year)[2:]`, not the last two digits
(`"0025-06-10"` → `"6/"`). -/
theorem C7_partition_name :
    (∀ s : String, wellFormedYMD s = true → 1000 ≤ yearOfYMD s →
      get_sheet_name_from_date s
        = some (toString (monthOfYMD s) ++ "/" ++ lastTwoDigitsStr (yearOfYMD s)))
    ∧ get_sheet_name_from_date "2025-06-10" = some "6/25"
    ∧ get_sheet_name_from_date "2025-12-01" = some "12/25"
    ∧ get_sheet_name_from_date "not-a-date" = Option.none
    ∧ get_sheet_name_from_date "0025-06-10" = some "6/" := by
  refine ⟨?_, by decide, by decide, by decide, by decide⟩
  intro s hwf hy
  obtain ⟨y1, y2, y3, y4, m1, m2, d1, d2, hl, hy1, hy2, hy3, hy4, hm1, hm2, hd1, hd2,
    hge1, hmge, hmle, hdge, hdle⟩ := wellFormedL_shape s.toList hwf
  have hyd : ([y1, y2, y3, y4] : List Char).all Char.isDigit = true := by
    simp [hy1, hy2, hy3, hy4]
  have hmd : ([m1, m2] : List Char).all Char.isDigit = true := by simp [hm1, hm2]
  have hdd : ([d1, d2] : List Char).all Char.isDigit = true := by simp [hd1, hd2]
  have hld : s.data = [y1, y2, y3, y4, '-', m1, m2, '-', d1, d2] := hl
  have hsplit : splitOnDash s.data = [[y1, y2, y3, y4], [m1, m2], [d1, d2]] := by
    rw [hld]
    show splitOnDash ([y1, y2, y3, y4] ++ '-' :: ([m1, m2] ++ '-' :: [d1, d2])) = _
    rw [splitOnDash_append _ _ (no_dash_of_digits hyd),
        splitOnDash_append _ _ (no_dash_of_digits hmd),
        splitOnDash_no_dash _ (no_dash_of_digits hdd)]
  have hyear : yearOfYMD s = natOfDigits [y1, y2, y3, y4] := by
    rw [yearOfYMD, hl]; rfl
  have hmonth : monthOfYMD s = natOfDigits [m1, m2] := by
    rw [monthOfYMD, hl]; rfl
  have hyle : natOfDigits [y1, y2, y3, y4] ≤ 9999 := by
    have b1 := digit_toNat_bounds hy1
    have b2 := digit_toNat_bounds hy2
    have b3 := digit_toNat_bounds hy3
    have b4 := digit_toNat_bounds hy4
    rw [natOfDigits_four]
    omega
  have hpd : parseDate s
      = some (natOfDigits [y1, y2, y3, y4], natOfDigits [m1, m2],
          natOfDigits [d1, d2]) := by
    simp [parseDate, hsplit, hyd, hmd, hdd, hge1, hmge, hmle, hdge, hdle]
  rw [get_sheet_name_from_date, hpd]
  simp only [Option.map_some']
  rw [hyear, hmonth]
  have hy1000 : 1000 ≤ natOfDigits [y1, y2, y3, y4] := by rw [hyear] at hy; exact hy
  show some _ = some _
  congr 1
  congr 1
  show (Nat.repr (natOfDigits [y1, y2, y3, y4])).drop 2 = _
  rw [repr_drop_two _ hy1000 hyle]

/-- C7 (witness): the general part of `C7_partition_name` applied to the
concrete leap-day date `2024-02-29`. -/
theorem C7_partition_name_witness :
    wellFormedYMD "2024-02-29" = true ∧ 1000 ≤ yearOfYMD "2024-02-29" ∧
    get_sheet_name_from_date "2024-02-29"
      = some (toString (monthOfYMD "2024-02-29") ++ "/"
          ++ lastTwoDigitsStr (yearOfYMD "2024-02-29")) :=
  ⟨by decide, by decide, C7_partition_name.1 "2024-02-29" (by decide) (by decide)⟩

/-! ## Claim C1 -/

/-- C1: the end-to-end record scenario is broken in the code.
`Transaction.to_sheet_data` emits the English keys `Date`/`Category`/
`Description`/`Income`/`Expenditure`, while `add_transaction` requires a
`"Tanggal"` key (per its own docstring) and maps values onto the Indonesian
header row; composing the two on the claimed expense
(category `transportation`, amount 150000, date 2025-06-10, kind
`pengeluaran`) therefore raises "Transaction date ('Tanggal') not found"
and appends nothing, for every starting spreadsheet state: no row
`["2025-06-10","transportation","-","","150000"]` ever reaches partition
`6/25` through this pipeline. -/
theorem C1_record_scenario_raises :
    ∀ (cy : Int) (f : Faults) (s : Spreadsheet),
      add_transaction cy f
        ((Transaction.make "2025-06-10" "pengeluaran" "transportation" 150000 "-").to_sheet_data)
        s
        = (s, [], .error "Transaction date ('Tanggal') not found in the provided data.") := by
  intro cy f s
  rfl

/-! ## Claim C8 -/

/-- C8: `Transaction.validate` succeeds exactly when the kind is one of the
two recognised values (income `pemasukan` / expense `pengeluaran`, matched
case-insensitively) and the amount is strictly positive; and the `/catat`
handler core persists nothing when validation fails — the spreadsheet it
returns is the one it was given. -/
theorem C8_validation :
    (∀ t : Transaction,
      t.validate = .ok () ↔ ((kindOf? t.jenis).isSome ∧ 0 < t.jumlah))
    ∧ (∀ (jenis kategori : String) (jumlah : Int) (deskripsi tanggal : String)
        (cy : Int) (f : Faults) (s : Spreadsheet),
        (Transaction.make tanggal jenis kategori jumlah deskripsi).validate ≠ .ok () →
        (catatCore jenis kategori jumlah deskripsi tanggal cy f s).1 = s) := by
  constructor
  · intro t
    unfold Transaction.validate kindOf?
    by_cases h1 : pyLower t.jenis = "pemasukan" <;>
      by_cases h2 : pyLower t.jenis = "pengeluaran" <;>
        by_cases h3 : t.jumlah ≤ 0 <;>
          simp [h1, h2, h3] <;> omega
  · intro jenis kategori jumlah deskripsi tanggal cy f s hne
    unfold catatCore
    cases hv : (Transaction.make tanggal jenis kategori jumlah deskripsi).validate with
    | error e => simp [hv]
    | ok u => cases u; exact absurd hv hne

/-- C8 (witness): an unrecognised kind (`hadiah`) fails validation and the
handler leaves the empty spreadsheet untouched. -/
theorem C8_validation_witness :
    ((Transaction.make "2025-06-10" "hadiah" "bonus" 5 "-").validate ≠ .ok ()) ∧
    (catatCore "hadiah" "bonus" 5 "-" "2025-06-10" 2025 noFaults ⟨[]⟩).1 = ⟨[]⟩ :=
  ⟨by decide,
   C8_validation.2 "hadiah" "bonus" 5 "-" "2025-06-10" 2025 noFaults ⟨[]⟩ (by decide)⟩

/-! ## Claim C9 -/

theorem find?_of_first {α} (p : α → Bool) : ∀ (l : List α) (i : Nat) (a : α),
    l.get? i = some a → p a = true →
    (∀ j b, j < i → l.get? j = some b → p b = false) →
    l.find? p = some a := by
  intro l
  induction l with
  | nil => intro i a h; simp at h
  | cons x xs ih =>
    intro i a hget hp hprev
    cases i with
    | zero =>
      simp only [List.get?] at hget
      injection hget with hget
      subst hget
      simp [List.find?_cons, hp]
    | succ n =>
      have hx : p x = false := hprev 0 x (Nat.succ_pos n) rfl
      rw [List.find?_cons_of_neg _ (by simp [hx])]
      exact ih n a (by simpa using hget) hp
        (fun j b hj hb => hprev (j + 1) b (by omega) (by simpa using hb))

/-- C9: `TransactionCategory.categorize` is total and resolves by
case-insensitive substring containment: when some mapping keyword occurs in
the lowercased text, the result is the category of the first such keyword in
the mapping's iteration order; when none occurs, the result is
`OTHER_EXPENSE`; and `"kertas"` resolves to `SHOPPING_CLOTHING` because it
contains the keyword `"tas"`. -/
theorem C9_categorize :
    (∀ (text : String) (i : Nat) (kv : String × TransactionCategory),
       TransactionCategory.get_category_mapping.get? i = some kv →
       TransactionCategory.containsSub (pyLower text) kv.1 = true →
       (∀ j kv', j < i → TransactionCategory.get_category_mapping.get? j = some kv' →
          TransactionCategory.containsSub (pyLower text) kv'.1 = false) →
       TransactionCategory.categorize text = kv.2)
    ∧ (∀ text : String,
        (∀ kv ∈ TransactionCategory.get_category_mapping,
          TransactionCategory.containsSub (pyLower text) kv.1 = false) →
        TransactionCategory.categorize text = .OTHER_EXPENSE)
    ∧ TransactionCategory.categorize "kertas" = .SHOPPING_CLOTHING := by
  refine ⟨?_, ?_, by decide⟩
  · intro text i kv hget hp hprev
    unfold TransactionCategory.categorize
    dsimp only
    rw [find?_of_first _ _ i kv hget hp hprev]
  · intro text hall
    unfold TransactionCategory.categorize
    dsimp only
    rw [List.find?_eq_none.mpr (fun kv hm => by simp [hall kv hm])]

/-- C9 (witness): the first-match direction applied at index 0 (`makan`). -/
theorem C9_categorize_witness :
    TransactionCategory.get_category_mapping.get? 0 = some ("makan", .FOOD_DINING) ∧
    TransactionCategory.containsSub (pyLower "makan enak") "makan" = true ∧
    TransactionCategory.categorize "makan enak" = .FOOD_DINING :=
  ⟨by decide, by decide,
   C9_categorize.1 "makan enak" 0 ("makan", .FOOD_DINING) (by decide) (by decide)
     (fun j kv' hj _ => absurd hj (Nat.not_lt_zero j))⟩

/-! ## Claim C3 -/

/-- C3: `get_or_create_sheet` is idempotent.  Creating a missing partition
installs it with exactly the single header row (so the header precedes any
later data rows and is written only at creation), the created worksheet is
found by a subsequent lookup, and a second call returns the same worksheet
and the same state while appending nothing (no append events). -/
theorem C3_get_or_create_idempotent :
    (∀ (s : Spreadsheet) (name : String), findWs s name = Option.none →
       (get_or_create_sheet s name).1.title = name ∧
       (get_or_create_sheet s name).1.grid = [headerCells] ∧
       findWs (get_or_create_sheet s name).2.1 name = some (get_or_create_sheet s name).1 ∧
       get_or_create_sheet (get_or_create_sheet s name).2.1 name
         = ((get_or_create_sheet s name).1, (get_or_create_sheet s name).2.1, []))
    ∧ (∀ (s : Spreadsheet) (name : String) (w : Worksheet), findWs s name = some w →
       get_or_create_sheet s name = (w, s, [])) := by
  constructor
  · intro s name h
    have hfind : findWs ⟨s.sheets ++ [⟨name, [headerCells]⟩]⟩ name
        = some ⟨name, [headerCells]⟩ := by
      unfold findWs at h ⊢
      rw [List.find?_append, h]
      simp
    simp [get_or_create_sheet, h, hfind]
  · intro s name w h
    simp [get_or_create_sheet, h]

/-- C3 (witness): creating `6/25` in the empty spreadsheet and calling again. -/
theorem C3_get_or_create_idempotent_witness :
    findWs ⟨[]⟩ "6/25" = Option.none ∧
    (get_or_create_sheet ⟨[]⟩ "6/25").1.grid = [headerCells] ∧
    get_or_create_sheet (get_or_create_sheet ⟨[]⟩ "6/25").2.1 "6/25"
      = ((get_or_create_sheet ⟨[]⟩ "6/25").1, (get_or_create_sheet ⟨[]⟩ "6/25").2.1, []) :=
  ⟨by decide,
   (C3_get_or_create_idempotent.1 ⟨[]⟩ "6/25" (by decide)).2.1,
   (C3_get_or_create_idempotent.1 ⟨[]⟩ "6/25" (by decide)).2.2.2⟩

/-! ## Claim C10 -/

/-- C10 (counterexample): the claimed classification condition holds of the
title `"1/+5"` (it contains `/`, is not `dashboard`, and both parts `1` and
`+5` parse as Python integers), yet the code skips the sheet, because it
parses `int("20+5")`, which raises: `get_monthly_sheets` classifies strictly
fewer sheets than the claim states. -/
theorem C10_monthly_discovery_counterexample :
    claimMonthly "1/+5" = true ∧
    classifySheet ⟨"1/+5", [headerCells]⟩ = Option.none ∧
    get_monthly_sheets ⟨[⟨"1/+5", [headerCells]⟩]⟩ = [] := by
  refine ⟨by decide, by decide, by decide⟩

/-- C10 (amended): `get_monthly_sheets` classifies a worksheet as monthly
exactly when its title contains `/`, its lowercased title is not
`dashboard`, the title splits into exactly two parts, the first part parses
as a Python integer, and `"20" ++ second part` parses as a Python integer;
the resolved month is the first part's value (no 1–12 range check, so
`"13/25"` yields month 13 and `"0/25"` month 0), and the year is always
`int("20" ++ second part)`. -/
theorem C10_monthly_discovery :
    (∀ ws : Worksheet, (classifySheet ws).isSome = amendedMonthly ws.title)
    ∧ (∀ (ws : Worksheet) (info : MonthInfo), classifySheet ws = some info →
        ∃ mstr ystr mv yv, pySplit ws.title '/' = [mstr, ystr] ∧
          pyInt? mstr = some mv ∧ pyInt? ("20" ++ ystr) = some yv ∧
          info = ⟨mv, yv, get_sheet_summary ws⟩)
    ∧ classifySheet ⟨"13/25", [headerCells]⟩
        = some ⟨13, 2025, get_sheet_summary ⟨"13/25", [headerCells]⟩⟩
    ∧ classifySheet ⟨"0/25", [headerCells]⟩
        = some ⟨0, 2025, get_sheet_summary ⟨"0/25", [headerCells]⟩⟩ := by
  refine ⟨?_, ?_, by with_unfolding_all rfl, by with_unfolding_all rfl⟩
  · intro ws
    unfold classifySheet amendedMonthly
    by_cases h : pyContains ws.title '/' ∧ pyLower ws.title ≠ "dashboard"
    · rw [if_pos h]
      cases hs : pySplit ws.title '/' with
      | nil => simp [h.1, h.2, hs]
      | cons a t =>
        cases t with
        | nil => simp [h.1, h.2, hs]
        | cons b t2 =>
          cases t2 with
          | nil =>
            cases hm : pyInt? a <;> cases hy : pyInt? ("20" ++ b) <;>
              simp [h.1, h.2, hs, hm, hy, Option.bind]
          | cons c t3 => simp [h.1, h.2, hs]
    · rw [if_neg h]
      rcases Decidable.not_and_iff_or_not.mp h with h1 | h2
      · simp [Bool.not_eq_true] at h1
        simp [h1]
      · simp at h2
        simp [h2]
  · intro ws info h
    unfold classifySheet at h
    split at h
    · split at h
      · next mstr ystr hs =>
        cases hm : pyInt? mstr with
        | none => rw [hm] at h; simp [Option.bind] at h
        | some mv =>
          cases hy : pyInt? ("20" ++ ystr) with
          | none => rw [hm, hy] at h; simp [Option.bind] at h
          | some yv =>
            rw [hm, hy] at h
            simp [Option.bind] at h
            exact ⟨mstr, ystr, mv, yv, hs, hm, hy, h.symm⟩
      · exact Option.noConfusion h
    · exact Option.noConfusion h

/-- C10 (witness): the value-characterisation applied to the concrete sheet
`6/25`. -/
theorem C10_monthly_discovery_witness :
    ∃ mstr ystr mv yv, pySplit "6/25" '/' = [mstr, ystr] ∧
      pyInt? mstr = some mv ∧ pyInt? ("20" ++ ystr) = some yv ∧
      (⟨6, 2025, get_sheet_summary ⟨"6/25", [headerCells]⟩⟩ : MonthInfo)
        = ⟨mv, yv, get_sheet_summary ⟨"6/25", [headerCells]⟩⟩ :=
  C10_monthly_discovery.2.1 ⟨"6/25", [headerCells]⟩
    ⟨6, 2025, get_sheet_summary ⟨"6/25", [headerCells]⟩⟩ (by with_unfolding_all rfl)

/-! ## Claim C4 -/

theorem assocGetD_assocAdd (m : List (String × ℚ)) (k c : String) (v : ℚ) :
    assocGetD (assocAdd m k v) c 0
      = assocGetD m c 0 + (if k = c then v else 0) := by
  induction m with
  | nil => by_cases h : k = c <;> simp [assocAdd, assocGetD, h]
  | cons kv rest ih =>
    obtain ⟨a, b⟩ := kv
    by_cases h1 : a = k
    · subst h1
      by_cases h2 : a = c
      · subst h2
        simp [assocAdd, assocGetD]
      · simp [assocAdd, assocGetD, h2]
    · by_cases h2 : a = c
      · subst h2
        have hk : ¬ k = a := fun e => h1 e.symm
        simp [assocAdd, assocGetD, h1, hk]
      · simp [assocAdd, assocGetD, h1, h2]
        exact ih

theorem guard_eq_cellContribution (v : String) :
    (if v ≠ "" ∧ pyStrip v ≠ "" then (pyFloat? (stripCommas v)).getD 0 else 0)
      = cellContribution v := by
  unfold cellContribution
  by_cases h : pyStrip v = ""
  · have hv : ¬ (v ≠ "" ∧ pyStrip v ≠ "") := fun hc => hc.2 h
    rw [if_neg hv, if_pos h]
  · have hv : v ≠ "" := by
      intro e; subst e; exact h rfl
    rw [if_pos ⟨hv, h⟩, if_neg h]

theorem summaryStep_eq (headers : List String) (i e : ℚ) (cats : List (String × ℚ))
    (row : List Cell) :
    summaryStep headers (i, e, cats) row
      = (i + rowIncome headers row, e + rowExpense headers row,
         (summaryStep headers (i, e, cats) row).2.2)
    ∧ ∀ c, assocGetD (summaryStep headers (i, e, cats) row).2.2 c 0
        = assocGetD cats c 0
          + (if rowCategory headers row = c then rowExpense headers row else 0) := by
  have hri : rowIncome headers row
      = (if recGet headers row "Pemasukan" "" ≠ "" ∧
            pyStrip (recGet headers row "Pemasukan" "") ≠ "" then
          (pyFloat? (stripCommas (recGet headers row "Pemasukan" ""))).getD 0 else 0) :=
    (guard_eq_cellContribution _).symm
  have hre : rowExpense headers row
      = (if recGet headers row "Pengeluaran" "" ≠ "" ∧
            pyStrip (recGet headers row "Pengeluaran" "") ≠ "" then
          (pyFloat? (stripCommas (recGet headers row "Pengeluaran" ""))).getD 0 else 0) :=
    (guard_eq_cellContribution _).symm
  unfold summaryStep
  dsimp only
  by_cases hgi : recGet headers row "Pemasukan" "" ≠ "" ∧
      pyStrip (recGet headers row "Pemasukan" "") ≠ "" <;>
    by_cases hge : recGet headers row "Pengeluaran" "" ≠ "" ∧
        pyStrip (recGet headers row "Pengeluaran" "") ≠ "" <;>
      (try cases hpi : pyFloat? (stripCommas (recGet headers row "Pemasukan" ""))) <;>
      (try cases hpe : pyFloat? (stripCommas (recGet headers row "Pengeluaran" ""))) <;>
      simp [hgi, hge, hpi, hpe, hri, hre, rowCategory, assocGetD_assocAdd]

theorem summary_foldl (headers : List String) :
    ∀ (rows : List (List Cell)) (i e : ℚ) (cats : List (String × ℚ)),
      ((rows.foldl (summaryStep headers) (i, e, cats)).1
          = i + (rows.map (rowIncome headers)).sum)
      ∧ ((rows.foldl (summaryStep headers) (i, e, cats)).2.1
          = e + (rows.map (rowExpense headers)).sum)
      ∧ ∀ c, assocGetD (rows.foldl (summaryStep headers) (i, e, cats)).2.2 c 0
          = assocGetD cats c 0
            + (rows.map fun r =>
                if rowCategory headers r = c then rowExpense headers r else 0).sum := by
  intro rows
  induction rows with
  | nil => intro i e cats; simp
  | cons r rest ih =>
    intro i e cats
    have hstep := summaryStep_eq headers i e cats r
    rw [List.foldl_cons, hstep.1]
    obtain ⟨h1, h2, h3⟩ := ih (i + rowIncome headers r) (e + rowExpense headers r)
      ((summaryStep headers (i, e, cats) r).2.2)
    refine ⟨?_, ?_, ?_⟩
    · rw [h1]; simp [List.sum_cons]; ring
    · rw [h2]; simp [List.sum_cons]; ring
    · intro c
      rw [h3 c, hstep.2 c]
      simp [List.sum_cons]
      ring

/-- C4: `_get_sheet_summary` under the canonical header row returns, for
every list of data rows, the sum of the parsed `Pemasukan` cells as
`total_income`, the sum of the parsed `Pengeluaran` cells as
`total_expenditure`, their difference as `net_difference`, and a category
map whose entry for each category is the sum of that category's parsed
expense cells — blank and non-numeric cells contributing 0 without aborting
the scan; on the spec's example (expense cells 50000/bad/blank/25,000 under
`food`) it yields total expenditure 75000 and categories
`{food: 75000}`. -/
theorem C4_sheet_summary :
    (∀ (title : String) (rows : List (List Cell)),
      ((get_sheet_summary ⟨title, headerCells :: rows⟩).total_income
          = (rows.map (rowIncome headerStrings)).sum)
      ∧ ((get_sheet_summary ⟨title, headerCells :: rows⟩).total_expenditure
          = (rows.map (rowExpense headerStrings)).sum)
      ∧ ((get_sheet_summary ⟨title, headerCells :: rows⟩).net_difference
          = (get_sheet_summary ⟨title, headerCells :: rows⟩).total_income
            - (get_sheet_summary ⟨title, headerCells :: rows⟩).total_expenditure)
      ∧ ∀ c, assocGetD (get_sheet_summary ⟨title, headerCells :: rows⟩).categories c 0
          = (rows.map fun r =>
              if rowCategory headerStrings r = c then rowExpense headerStrings r else 0).sum)
    ∧ get_sheet_summary ⟨"6/25", foodGrid⟩
        = ⟨0, 75000, -75000, [("food", 75000)]⟩ := by
  constructor
  · intro title rows
    have hgs : get_sheet_summary ⟨title, headerCells :: rows⟩
        = { total_income := (rows.foldl (summaryStep headerStrings) (0, 0, [])).1,
            total_expenditure := (rows.foldl (summaryStep headerStrings) (0, 0, [])).2.1,
            net_difference := (rows.foldl (summaryStep headerStrings) (0, 0, [])).1
              - (rows.foldl (summaryStep headerStrings) (0, 0, [])).2.1,
            categories := (rows.foldl (summaryStep headerStrings) (0, 0, [])).2.2 } := rfl
    obtain ⟨h1, h2, h3⟩ := summary_foldl headerStrings rows 0 0 []
    rw [hgs]
    refine ⟨by rw [h1]; simp, by rw [h2]; simp, rfl, ?_⟩
    intro c
    rw [h3 c]
    simp [assocGetD]
  · with_unfolding_all rfl

/-! ## Claim C6 -/

/-- C6: every `add_transaction` call that returns normally returns `True`,
and its recorded store calls end with the transaction-row append followed by
the dashboard recompute — the recompute is invoked after the row is appended
and before the call returns. -/
theorem C6_write_then_recompute :
    ∀ (cy : Int) (f : Faults) (td : List (String × PyVal)) (s : Spreadsheet)
      (s' : Spreadsheet) (ev : List Ev) (b : Bool),
      add_transaction cy f td s = (s', ev, .ok b) →
      b = true ∧ ∃ pre name row, ev = pre ++ [.appendRow name row, .updateDashboard] := by
  intro cy f td s s' ev b h
  unfold add_transaction at h
  cases hd : dictGet td "Tanggal" with
  | none => rw [hd] at h; simp at h
  | some dv =>
    rw [hd] at h
    by_cases ht : dv.truthy = true
    · simp only [ht, not_true, if_neg, ite_false] at h
      cases hn : get_sheet_name_from_date (headSplit dv.pyStr) with
      | none => rw [hn] at h; simp at h
      | some nm =>
        rw [hn] at h
        dsimp only at h
        by_cases hh : rowValues1 (get_or_create_sheet s nm).2.1 nm = []
        · simp only [hh, ite_true, if_pos] at h
          by_cases ha : f.appendRow = true
          · simp [ha] at h
          · simp only [ha, ite_false, if_neg, Bool.false_eq_true] at h
            obtain ⟨hs, hev, hb⟩ := by simpa using h
            refine ⟨hb, (get_or_create_sheet s nm).2.2 ++ [Ev.appendRow nm headerCells],
              nm, List.map Cell.str (buildRow headerStrings td), ?_⟩
            rw [← hev]
            simp
        · simp only [hh, ite_false, if_neg] at h
          by_cases ha : f.appendRow = true
          · simp [ha] at h
          · simp only [ha, ite_false, if_neg, Bool.false_eq_true] at h
            obtain ⟨hs, hev, hb⟩ := by simpa using h
            refine ⟨hb, (get_or_create_sheet s nm).2.2, nm,
              List.map Cell.str (buildRow (rowValues1 (get_or_create_sheet s nm).2.1 nm) td), ?_⟩
            rw [← hev]
    · simp only [ht] at h
      simp at h

/-- C6 (witness): the successful write of `tdSample` into `sSample` ends
with an append followed by the dashboard recompute. -/
theorem C6_write_then_recompute_witness :
    (add_transaction 2025 noFaults tdSample sSample).2.2 = .ok true ∧
    ∃ pre name row, (add_transaction 2025 noFaults tdSample sSample).2.1
      = pre ++ [.appendRow name row, .updateDashboard] := by
  have h : add_transaction 2025 noFaults tdSample sSample
      = ((add_transaction 2025 noFaults tdSample sSample).1,
         (add_transaction 2025 noFaults tdSample sSample).2.1, .ok true) := by
    with_unfolding_all rfl
  have hc := C6_write_then_recompute 2025 noFaults tdSample sSample _ _ true h
  exact ⟨by rw [h], hc.2⟩

/-! ## Claim C2 -/

set_option maxRecDepth 100000 in
/-- C2 (counterexample): with the monthly-summary batch write raising, the
dashboard update of `sC2` still returns `True` to its caller even though the
failing sub-step lost its write (the resulting state differs from the
fault-free run) — a failing write path that reports success. -/
theorem C2_surfacing_counterexample :
    (update_dashboard_data 2025 faultMonthly sC2).1 = true ∧
    (update_dashboard_data 2025 faultMonthly sC2).2
      ≠ (update_dashboard_data 2025 noFaults sC2).2 := by
  constructor
  · with_unfolding_all rfl
  · with_unfolding_all decide

/-- C2 (amended): `add_transaction` does surface failure — whenever the row
append raises, the caller receives a raised error — but the four dashboard
recompute sub-steps swallow their internal errors: the boolean
`update_dashboard_data` returns depends only on whether the `Dashboard`
lookup succeeds, not on any sub-step write fault. -/
theorem C2_surfacing :
    (∀ (cy : Int) (f : Faults) (td : List (String × PyVal)) (s : Spreadsheet),
       f.appendRow = true → ∃ e, (add_transaction cy f td s).2.2 = .error e)
    ∧ (∀ (cy : Int) (f : Faults) (s : Spreadsheet),
       (update_dashboard_data cy f s).1
         = (!f.dashboardLookup && (findWs s "Dashboard").isSome)) := by
  constructor
  · intro cy f td s ha
    unfold add_transaction
    cases hd : dictGet td "Tanggal" with
    | none => exact ⟨_, rfl⟩
    | some dv =>
      by_cases ht : dv.truthy = true
      · simp only [ht, not_true, ite_false, if_neg]
        cases hn : get_sheet_name_from_date (headSplit dv.pyStr) with
        | none => exact ⟨_, rfl⟩
        | some nm =>
          dsimp only
          by_cases hh : rowValues1 (get_or_create_sheet s nm).2.1 nm = [] <;>
            simp [hh, ha]
      · simp only [ht]
        exact ⟨_, rfl⟩
  · intro cy f s
    unfold update_dashboard_data
    by_cases hf : f.dashboardLookup = true
    · simp [hf]
    · cases hw : findWs s "Dashboard" with
      | none => simp [hf, hw]
      | some w => simp [hf, hw]

/-- C2 (witness): the amended statement at concrete inputs — an append fault
raises out of `add_transaction`, and the fault-free dashboard update of
`sSample` reports the dashboard lookup's success. -/
theorem C2_surfacing_witness :
    (∃ e, (add_transaction 2025 faultAppend tdSample sSample).2.2 = .error e) ∧
    (update_dashboard_data 2025 noFaults sSample).1
      = (!noFaults.dashboardLookup && (findWs sSample "Dashboard").isSome) :=
  ⟨C2_surfacing.1 2025 faultAppend tdSample sSample rfl,
   C2_surfacing.2 2025 noFaults sSample⟩

/-! ## Assignment-list lemmas -/

theorem applyCells_append (a b : List (Nat × Nat × Cell)) (g : Grid) :
    applyCells (a ++ b) g = applyCells b (applyCells a g) := by
  simp [applyCells, List.foldl_append]

theorem applyCells_setCell_comm (a : List (Nat × Nat × Cell)) (r c : Nat) (v : Cell)
    (h : ∀ q ∈ coordsOf a, cellDisj (r, c) q) :
    ∀ g, applyCells a (setCell g r c v) = setCell (applyCells a g) r c v := by
  induction a with
  | nil => intro g; rfl
  | cons x t ih =>
    intro g
    have hx : cellDisj (r, c) (x.1, x.2.1) := h _ (by simp [coordsOf])
    show applyCells t (setCell (setCell g r c v) x.1 x.2.1 x.2.2) = _
    rw [setCell_comm _ _ _ _ _ _ _ hx]
    rw [ih (fun q hq => h q (by simp [coordsOf] at hq ⊢; right; exact hq))]
    rfl

theorem applyCells_twice (a : List (Nat × Nat × Cell))
    (h : List.Pairwise cellDisj (coordsOf a)) :
    ∀ g, applyCells a (applyCells a g) = applyCells a g := by
  induction a with
  | nil => intro g; rfl
  | cons x t ih =>
    intro g
    have hp : List.Pairwise cellDisj (coordsOf t) := by
      simp only [coordsOf, List.map_cons, List.pairwise_cons] at h
      exact h.2
    have hx : ∀ q ∈ coordsOf t, cellDisj (x.1, x.2.1) q := by
      simp only [coordsOf, List.map_cons, List.pairwise_cons] at h
      exact h.1
    show applyCells t (setCell (applyCells t (setCell g x.1 x.2.1 x.2.2)) x.1 x.2.1 x.2.2)
        = applyCells t (setCell g x.1 x.2.1 x.2.2)
    rw [← applyCells_setCell_comm t _ _ _ hx]
    rw [setCell_twice]
    exact ih hp _

theorem writeRow_eq_applyCells (vs : List Cell) :
    ∀ (g : Grid) (r c : Nat), writeRow g r c vs = applyCells (rowAsg r c vs) g := by
  induction vs with
  | nil => intro g r c; rfl
  | cons v vs ih =>
    intro g r c
    show writeRow (setCell g r c v) r (c + 1) vs = _
    rw [ih]
    rfl

theorem rangeUpdate_eq_applyCells (p : List (List Cell)) :
    ∀ (g : Grid) (tr tc : Nat),
      rangeUpdate g tr tc p = applyCells (rangeAsg tr tc p) g := by
  induction p with
  | nil => intro g tr tc; rfl
  | cons row rows ih =>
    intro g tr tc
    show rangeUpdate (writeRow g tr tc row) (tr + 1) tc rows = _
    rw [ih, writeRow_eq_applyCells, rangeAsg, applyCells_append]

theorem mem_coords_rowAsg (vs : List Cell) :
    ∀ (r c : Nat) (q : Nat × Nat), q ∈ coordsOf (rowAsg r c vs) →
      q.1 = r ∧ c ≤ q.2 ∧ q.2 < c + vs.length := by
  induction vs with
  | nil => intro r c q hq; simp [rowAsg, coordsOf] at hq
  | cons v vs ih =>
    intro r c q hq
    simp only [rowAsg, coordsOf, List.map_cons, List.mem_cons] at hq
    rcases hq with hq | hq
    · subst hq
      refine ⟨rfl, le_refl c, ?_⟩
      simp [List.length_cons]
    · have := ih r (c + 1) q hq
      exact ⟨this.1, by omega, by simp [List.length_cons]; omega⟩

theorem mem_coords_rangeAsg (p : List (List Cell)) :
    ∀ (tr tc : Nat) (W : Nat), (∀ row ∈ p, row.length ≤ W) →
      ∀ q ∈ coordsOf (rangeAsg tr tc p),
        tr ≤ q.1 ∧ q.1 < tr + p.length ∧ tc ≤ q.2 ∧ q.2 < tc + W := by
  induction p with
  | nil => intro tr tc W hW q hq; simp [rangeAsg, coordsOf] at hq
  | cons row rows ih =>
    intro tr tc W hW q hq
    simp only [rangeAsg, coordsOf, List.map_append, List.mem_append] at hq
    rcases hq with hq | hq
    · have h1 := mem_coords_rowAsg row tr tc q hq
      have h2 : row.length ≤ W := hW row (by simp)
      exact ⟨by omega, by simp [List.length_cons]; omega, by omega, by omega⟩
    · have := ih (tr + 1) tc W (fun x hx => hW x (by simp [hx])) q hq
      exact ⟨by omega, by simp [List.length_cons]; omega, this.2.2.1, this.2.2.2⟩

theorem pairwise_rowAsg (vs : List Cell) :
    ∀ (r c : Nat), 1 ≤ c → List.Pairwise cellDisj (coordsOf (rowAsg r c vs)) := by
  induction vs with
  | nil => intro r c hc; simp [rowAsg, coordsOf]
  | cons v vs ih =>
    intro r c hc
    simp only [rowAsg, coordsOf, List.map_cons, List.pairwise_cons]
    constructor
    · intro q hq
      have := mem_coords_rowAsg vs r (c + 1) q hq
      show (r, c).1 - 1 ≠ q.1 - 1 ∨ (r, c).2 - 1 ≠ q.2 - 1
      exact Or.inr (by simp only; omega)
    · exact ih r (c + 1) (by omega)

theorem mem_coords_rangeAsg_row_lb (p : List (List Cell)) :
    ∀ (tr tc : Nat) (q : Nat × Nat), q ∈ coordsOf (rangeAsg tr tc p) → tr ≤ q.1 := by
  induction p with
  | nil => intro tr tc q hq; simp [rangeAsg, coordsOf] at hq
  | cons row rows ih =>
    intro tr tc q hq
    simp only [rangeAsg, coordsOf, List.map_append, List.mem_append] at hq
    rcases hq with hq | hq
    · exact (mem_coords_rowAsg row tr tc q hq).1.ge
    · have := ih (tr + 1) tc q hq
      omega

theorem pairwise_rangeAsg (p : List (List Cell)) :
    ∀ (tr tc : Nat), 1 ≤ tr → 1 ≤ tc →
      List.Pairwise cellDisj (coordsOf (rangeAsg tr tc p)) := by
  induction p with
  | nil => intro tr tc h1 h2; simp [rangeAsg, coordsOf]
  | cons row rows ih =>
    intro tr tc h1 h2
    simp only [rangeAsg, coordsOf, List.map_append]
    rw [List.pairwise_append]
    refine ⟨pairwise_rowAsg row tr tc h2, ih (tr + 1) tc (by omega) h2, ?_⟩
    intro q1 hq1 q2 hq2
    have b1 := mem_coords_rowAsg row tr tc q1 hq1
    have b2 := mem_coords_rangeAsg_row_lb rows (tr + 1) tc q2 hq2
    show q1.1 - 1 ≠ q2.1 - 1 ∨ q1.2 - 1 ≠ q2.2 - 1
    exact Or.inl (by omega)


theorem monthlyPayload_length (ty : Int) (md : List (String × MonthInfo)) :
    (monthlyPayload ty md).length = 12 := rfl

theorem monthlyPayload_width (ty : Int) (md : List (String × MonthInfo)) :
    ∀ row ∈ monthlyPayload ty md, row.length ≤ 3 := by
  intro row hrow
  simp only [monthlyPayload, List.mem_map] at hrow
  obtain ⟨i, _, hrow⟩ := hrow
  subst hrow
  split <;> simp

theorem top5Payload_length (t : List (String × ℚ)) : (top5Payload t).length = 5 := rfl

theorem top5Payload_width (t : List (String × ℚ)) :
    ∀ row ∈ top5Payload t, row.length ≤ 2 := by
  intro row hrow
  simp only [top5Payload, List.mem_map] at hrow
  obtain ⟨i, _, hrow⟩ := hrow
  subst hrow
  split <;> simp

theorem getCell_writeRow_row_ne (vs : List Cell) :
    ∀ (g : Grid) (r c r' c' : Nat), r - 1 ≠ r' - 1 →
      getCell (writeRow g r c vs) r' c' = getCell g r' c' := by
  induction vs with
  | nil => intro g r c r' c' h; rfl
  | cons v vs ih =>
    intro g r c r' c' h
    show getCell (writeRow (setCell g r c v) r (c + 1) vs) r' c' = _
    rw [ih _ _ _ _ _ h, getCell_setCell_ne _ _ _ _ _ _ (Or.inl h)]

theorem getCell_rangeUpdate_row_out (p : List (List Cell)) :
    ∀ (g : Grid) (tr tc r' c' : Nat), 1 ≤ tr → 1 ≤ r' →
      (r' < tr ∨ tr + p.length ≤ r') →
      getCell (rangeUpdate g tr tc p) r' c' = getCell g r' c' := by
  induction p with
  | nil => intro g tr tc r' c' h1 h2 h3; rfl
  | cons row rows ih =>
    intro g tr tc r' c' h1 h2 h3
    simp only [List.length_cons] at h3
    have h3a : r' < tr + 1 ∨ (tr + 1) + rows.length ≤ r' := by omega
    have hne : tr - 1 ≠ r' - 1 := by omega
    show getCell (rangeUpdate (writeRow g tr tc row) (tr + 1) tc rows) r' c' = _
    rw [ih _ _ _ _ _ (by omega) h2 h3a, getCell_writeRow_row_ne _ _ _ _ _ _ hne]

theorem rangeTopLeft_B3 : rangeTopLeft "B3:D14" = (3, 2) := by rfl
theorem rangeTopLeft_F3 : rangeTopLeft "F3" = (3, 6) := by rfl
theorem rangeTopLeft_F5 : rangeTopLeft "F5" = (5, 6) := by rfl
theorem rangeTopLeft_F7 : rangeTopLeft "F7" = (7, 6) := by rfl
theorem rangeTopLeft_B18 : rangeTopLeft "B18:C22" = (18, 2) := by rfl
theorem rangeTopLeft_B26 : rangeTopLeft "B26:C30" = (26, 2) := by rfl

theorem mapFirstWs_comp (n : String) (f g : Grid → Grid) :
    ∀ l : List Worksheet,
      mapFirstWs n f (mapFirstWs n g l) = mapFirstWs n (fun x => f (g x)) l := by
  intro l
  induction l with
  | nil => rfl
  | cons w ws ih =>
    by_cases ht : w.title = n
    · simp [mapFirstWs, ht]
    · simp [mapFirstWs, ht, ih]

theorem findWs_mapFirstWs (n : String) (f : Grid → Grid) :
    ∀ l : List Worksheet,
      findWs ⟨mapFirstWs n f l⟩ n
        = (findWs ⟨l⟩ n).map (fun w => ⟨w.title, f w.grid⟩) := by
  intro l
  induction l with
  | nil => rfl
  | cons w ws ih =>
    by_cases ht : w.title = n
    · simp [mapFirstWs, findWs, ht]
    · simp only [mapFirstWs, ht, if_neg, ite_false]
      unfold findWs
      rw [List.find?_cons_of_neg _ (by simp [ht]), List.find?_cons_of_neg _ (by simp [ht])]
      exact ih

theorem classifySheet_dashboard (g : Grid) :
    classifySheet ⟨"Dashboard", g⟩ = Option.none := by
  have hc : pyContains "Dashboard" '/' = false := by decide
  simp [classifySheet, hc]

theorem get_monthly_sheets_wsUpdate (s : Spreadsheet) (range : String)
    (p : List (List Cell)) :
    get_monthly_sheets (wsUpdate s "Dashboard" range p) = get_monthly_sheets s := by
  unfold get_monthly_sheets wsUpdate
  suffices h : ∀ (l : List Worksheet) (acc : List (String × MonthInfo)),
      (mapFirstWs "Dashboard" (fun g => gridUpdate g range p) l).foldl
        (fun monthly_data ws =>
          match classifySheet ws with
          | some info => assocSet monthly_data ws.title info
          | Option.none => monthly_data) acc
      = l.foldl
        (fun monthly_data ws =>
          match classifySheet ws with
          | some info => assocSet monthly_data ws.title info
          | Option.none => monthly_data) acc by
    exact h s.sheets []
  intro l
  induction l with
  | nil => intro acc; rfl
  | cons w ws ih =>
    intro acc
    obtain ⟨wt, wg⟩ := w
    by_cases ht : wt = "Dashboard"
    · subst ht
      simp only [mapFirstWs, if_true, eq_self_iff_true, ite_true, List.foldl_cons]
      rw [show classifySheet { title := "Dashboard", grid := wg }
            = Option.none from classifySheet_dashboard wg]
      rw [show classifySheet
            { title := ("Dashboard" : String), grid := gridUpdate wg range p }
            = Option.none from classifySheet_dashboard _]
    · simp only [mapFirstWs, ht, if_neg, ite_false, List.foldl_cons]
      exact ih _

theorem dashCell_wsUpdate_row_out (s : Spreadsheet) (range : String)
    (p : List (List Cell)) (r c : Nat)
    (h1 : 1 ≤ (rangeTopLeft range).1) (h2 : 1 ≤ r)
    (h3 : r < (rangeTopLeft range).1 ∨ (rangeTopLeft range).1 + p.length ≤ r) :
    dashCell (wsUpdate s "Dashboard" range p) r c = dashCell s r c := by
  have key : findWs (wsUpdate s "Dashboard" range p) "Dashboard"
      = (findWs s "Dashboard").map (fun w => ⟨w.title, gridUpdate w.grid range p⟩) :=
    findWs_mapFirstWs "Dashboard" (fun g => gridUpdate g range p) s.sheets
  unfold dashCell
  rw [key]
  cases hf : findWs s "Dashboard" with
  | none => rfl
  | some w =>
    simp only [Option.map_some']
    show getCell (gridUpdate w.grid range p) r c = getCell w.grid r c
    unfold gridUpdate
    exact getCell_rangeUpdate_row_out p w.grid _ _ r c h1 h2 h3

theorem targetYear_wsUpdate (cy : Int) (s : Spreadsheet) (range : String)
    (p : List (List Cell))
    (h1 : 1 ≤ (rangeTopLeft range).1)
    (h3 : 1 < (rangeTopLeft range).1 ∨ (rangeTopLeft range).1 + p.length ≤ 1) :
    targetYear cy (wsUpdate s "Dashboard" range p) = targetYear cy s := by
  unfold targetYear
  rw [dashCell_wsUpdate_row_out s range p 1 3 h1 (by omega) h3]

theorem ums_normal (cy : Int) (t : Spreadsheet) (md : List (String × MonthInfo)) :
    update_monthly_summary cy noFaults t md
      = wsUpdate t "Dashboard" "B3:D14" (monthlyPayload (targetYear cy t) md) := rfl

theorem uat_normal (cy : Int) (t : Spreadsheet) (md : List (String × MonthInfo)) :
    update_annual_totals cy noFaults t md
      = wsUpdate (wsUpdate (wsUpdate t
          "Dashboard" "F3" [[Cell.num (annTAI (targetYear cy t) md)]])
          "Dashboard" "F5" [[Cell.num (annTAE (targetYear cy t) md)]])
          "Dashboard" "F7"
          [[Cell.num (annTAI (targetYear cy t) md - annTAE (targetYear cy t) md)]] := rfl

theorem ute_normal (cy : Int) (t : Spreadsheet) (md : List (String × MonthInfo)) :
    update_top_expenditures cy noFaults t md
      = wsUpdate (wsUpdate t "Dashboard" "B18:C22"
            (top5Payload ((sortDescByVal (annCats (targetYear cy t) md)).take 5)))
          "Dashboard" "B26:C30"
          (monTop (targetYear cy t) md
            (cellStr (dashCell (wsUpdate t "Dashboard" "B18:C22"
              (top5Payload ((sortDescByVal (annCats (targetYear cy t) md)).take 5))) 24 3))) := rfl

theorem findWs_wsUpdate (s : Spreadsheet) (n range : String) (p : List (List Cell)) :
    findWs (wsUpdate s n range p) n
      = (findWs s n).map (fun w => ⟨w.title, gridUpdate w.grid range p⟩) :=
  findWs_mapFirstWs n (fun g => gridUpdate g range p) s.sheets

theorem targetYear_dashWrite (cy ty : Int) (md : List (String × MonthInfo))
    (c24 : String) (t : Spreadsheet) :
    targetYear cy (dashWrite ty md c24 t) = targetYear cy t := by
  unfold dashWrite
  rw [targetYear_wsUpdate cy _ "B26:C30" _ (by decide) (Or.inl (by decide)),
      targetYear_wsUpdate cy _ "B18:C22" _ (by decide) (Or.inl (by decide)),
      targetYear_wsUpdate cy _ "F7" _ (by decide) (Or.inl (by decide)),
      targetYear_wsUpdate cy _ "F5" _ (by decide) (Or.inl (by decide)),
      targetYear_wsUpdate cy _ "F3" _ (by decide) (Or.inl (by decide)),
      targetYear_wsUpdate cy _ "B3:D14" _ (by decide) (Or.inl (by decide))]

theorem gms_dashWrite (ty : Int) (md : List (String × MonthInfo)) (c24 : String)
    (t : Spreadsheet) :
    get_monthly_sheets (dashWrite ty md c24 t) = get_monthly_sheets t := by
  unfold dashWrite
  rw [get_monthly_sheets_wsUpdate, get_monthly_sheets_wsUpdate,
      get_monthly_sheets_wsUpdate, get_monthly_sheets_wsUpdate,
      get_monthly_sheets_wsUpdate, get_monthly_sheets_wsUpdate]

theorem c24_dashWrite (ty : Int) (md : List (String × MonthInfo)) (c24 : String)
    (t : Spreadsheet) :
    dashCell (dashWrite ty md c24 t) 24 3 = dashCell t 24 3 := by
  unfold dashWrite
  rw [dashCell_wsUpdate_row_out _ "B26:C30" (monTop ty md c24) 24 3
        (by decide) (by decide) (Or.inl (by decide)),
      dashCell_wsUpdate_row_out _ "B18:C22"
        (top5Payload ((sortDescByVal (annCats ty md)).take 5)) 24 3
        (by decide) (by decide) (Or.inr (show 18 + 5 ≤ 24 by decide)),
      dashCell_wsUpdate_row_out _ "F7"
        [[Cell.num (annTAI ty md - annTAE ty md)]] 24 3
        (by decide) (by decide) (Or.inr (show 7 + 1 ≤ 24 by decide)),
      dashCell_wsUpdate_row_out _ "F5" [[Cell.num (annTAE ty md)]] 24 3
        (by decide) (by decide) (Or.inr (show 5 + 1 ≤ 24 by decide)),
      dashCell_wsUpdate_row_out _ "F3" [[Cell.num (annTAI ty md)]] 24 3
        (by decide) (by decide) (Or.inr (show 3 + 1 ≤ 24 by decide)),
      dashCell_wsUpdate_row_out _ "B3:D14" (monthlyPayload ty md) 24 3
        (by decide) (by decide) (Or.inr (show 3 + 12 ≤ 24 by decide))]

theorem coordsOf_append (a b : List (Nat × Nat × Cell)) :
    coordsOf (a ++ b) = coordsOf a ++ coordsOf b := by
  simp [coordsOf]

theorem pairwise_dashAsg (P1 P5 P6 : List (List Cell)) (x2 x3 x4 : Cell)
    (h1l : P1.length = 12) (h1w : ∀ r ∈ P1, r.length ≤ 3)
    (h5l : P5.length = 5) (h5w : ∀ r ∈ P5, r.length ≤ 2)
    (h6l : P6.length = 5) (h6w : ∀ r ∈ P6, r.length ≤ 2) :
    List.Pairwise cellDisj (coordsOf (rangeAsg 3 2 P1 ++ (rangeAsg 3 6 [[x2]]
      ++ (rangeAsg 5 6 [[x3]] ++ (rangeAsg 7 6 [[x4]]
      ++ (rangeAsg 18 2 P5 ++ rangeAsg 26 2 P6)))))) := by
  have w1 : ∀ r ∈ ([[x2]] : List (List Cell)), r.length ≤ 1 := by
    intro r hr
    simp only [List.mem_singleton] at hr
    subst hr; simp
  have w2 : ∀ r ∈ ([[x3]] : List (List Cell)), r.length ≤ 1 := by
    intro r hr
    simp only [List.mem_singleton] at hr
    subst hr; simp
  have w3 : ∀ r ∈ ([[x4]] : List (List Cell)), r.length ≤ 1 := by
    intro r hr
    simp only [List.mem_singleton] at hr
    subst hr; simp
  have b1 : ∀ q ∈ coordsOf (rangeAsg 3 2 P1),
      3 ≤ q.1 ∧ q.1 < 15 ∧ 2 ≤ q.2 ∧ q.2 < 5 := by
    intro q hq
    have h := mem_coords_rangeAsg P1 3 2 3 h1w q hq
    omega
  have b2 : ∀ q ∈ coordsOf (rangeAsg 3 6 [[x2]]),
      q.1 = 3 ∧ q.2 = 6 := by
    intro q hq
    have h := mem_coords_rangeAsg [[x2]] 3 6 1 w1 q hq
    have hl : ([[x2]] : List (List Cell)).length = 1 := rfl
    omega
  have b3 : ∀ q ∈ coordsOf (rangeAsg 5 6 [[x3]]),
      q.1 = 5 ∧ q.2 = 6 := by
    intro q hq
    have h := mem_coords_rangeAsg [[x3]] 5 6 1 w2 q hq
    have hl : ([[x3]] : List (List Cell)).length = 1 := rfl
    omega
  have b4 : ∀ q ∈ coordsOf (rangeAsg 7 6 [[x4]]),
      q.1 = 7 ∧ q.2 = 6 := by
    intro q hq
    have h := mem_coords_rangeAsg [[x4]] 7 6 1 w3 q hq
    have hl : ([[x4]] : List (List Cell)).length = 1 := rfl
    omega
  have b5 : ∀ q ∈ coordsOf (rangeAsg 18 2 P5),
      18 ≤ q.1 ∧ q.1 < 23 ∧ 2 ≤ q.2 ∧ q.2 < 4 := by
    intro q hq
    have h := mem_coords_rangeAsg P5 18 2 2 h5w q hq
    omega
  have b6 : ∀ q ∈ coordsOf (rangeAsg 26 2 P6),
      26 ≤ q.1 ∧ q.1 < 31 ∧ 2 ≤ q.2 ∧ q.2 < 4 := by
    intro q hq
    have h := mem_coords_rangeAsg P6 26 2 2 h6w q hq
    omega
  rw [coordsOf_append, coordsOf_append, coordsOf_append, coordsOf_append,
      coordsOf_append]
  refine (List.pairwise_append).2
    ⟨pairwise_rangeAsg P1 3 2 (by omega) (by omega), ?_, ?_⟩
  · refine (List.pairwise_append).2
      ⟨pairwise_rangeAsg [[x2]] 3 6 (by omega) (by omega), ?_, ?_⟩
    · refine (List.pairwise_append).2
        ⟨pairwise_rangeAsg [[x3]] 5 6 (by omega) (by omega), ?_, ?_⟩
      · refine (List.pairwise_append).2
          ⟨pairwise_rangeAsg [[x4]] 7 6 (by omega) (by omega), ?_, ?_⟩
        · refine (List.pairwise_append).2
            ⟨pairwise_rangeAsg P5 18 2 (by omega) (by omega),
             pairwise_rangeAsg P6 26 2 (by omega) (by omega), ?_⟩
          intro q1 hq1 q2 hq2
          have g1 := b5 q1 hq1
          have g2 := b6 q2 hq2
          show q1.1 - 1 ≠ q2.1 - 1 ∨ q1.2 - 1 ≠ q2.2 - 1
          omega
        · intro q1 hq1 q2 hq2
          have g1 := b4 q1 hq1
          show q1.1 - 1 ≠ q2.1 - 1 ∨ q1.2 - 1 ≠ q2.2 - 1
          rcases List.mem_append.1 hq2 with h | h
          · have g2 := b5 q2 h; omega
          · have g2 := b6 q2 h; omega
      · intro q1 hq1 q2 hq2
        have g1 := b3 q1 hq1
        show q1.1 - 1 ≠ q2.1 - 1 ∨ q1.2 - 1 ≠ q2.2 - 1
        rcases List.mem_append.1 hq2 with h | h
        · have g2 := b4 q2 h; omega
        · rcases List.mem_append.1 h with h | h
          · have g2 := b5 q2 h; omega
          · have g2 := b6 q2 h; omega
    · intro q1 hq1 q2 hq2
      have g1 := b2 q1 hq1
      show q1.1 - 1 ≠ q2.1 - 1 ∨ q1.2 - 1 ≠ q2.2 - 1
      rcases List.mem_append.1 hq2 with h | h
      · have g2 := b3 q2 h; omega
      · rcases List.mem_append.1 h with h | h
        · have g2 := b4 q2 h; omega
        · rcases List.mem_append.1 h with h | h
          · have g2 := b5 q2 h; omega
          · have g2 := b6 q2 h; omega
  · intro q1 hq1 q2 hq2
    have g1 := b1 q1 hq1
    show q1.1 - 1 ≠ q2.1 - 1 ∨ q1.2 - 1 ≠ q2.2 - 1
    rcases List.mem_append.1 hq2 with h | h
    · have g2 := b2 q2 h; omega
    · rcases List.mem_append.1 h with h | h
      · have g2 := b3 q2 h; omega
      · rcases List.mem_append.1 h with h | h
        · have g2 := b4 q2 h; omega
        · rcases List.mem_append.1 h with h | h
          · have g2 := b5 q2 h; omega
          · have g2 := b6 q2 h; omega

theorem monTop_length (ty : Int) (md : List (String × MonthInfo)) (c24 : String) :
    (monTop ty md c24).length = 5 := by
  unfold monTop
  split <;> rfl

theorem monTop_width (ty : Int) (md : List (String × MonthInfo)) (c24 : String) :
    ∀ r ∈ monTop ty md c24, r.length ≤ 2 := by
  unfold monTop
  split
  · exact top5Payload_width _
  · exact top5Payload_width _

theorem wsUpdate_as_map (s : Spreadsheet) (n range : String)
    (p : List (List Cell)) :
    wsUpdate s n range p
      = ⟨mapFirstWs n (fun g => gridUpdate g range p) s.sheets⟩ := rfl

theorem gridDash_eq_applyCells (P1 P5 P6 : List (List Cell)) (x2 x3 x4 : Cell)
    (g : Grid) :
    gridDash P1 P5 P6 x2 x3 x4 g
      = applyCells (rangeAsg 3 2 P1 ++ (rangeAsg 3 6 [[x2]]
          ++ (rangeAsg 5 6 [[x3]] ++ (rangeAsg 7 6 [[x4]]
          ++ (rangeAsg 18 2 P5 ++ rangeAsg 26 2 P6))))) g := by
  show rangeUpdate (rangeUpdate (rangeUpdate (rangeUpdate (rangeUpdate
      (rangeUpdate g 3 2 P1) 3 6 [[x2]]) 5 6 [[x3]]) 7 6 [[x4]]) 18 2 P5)
      26 2 P6 = _
  rw [rangeUpdate_eq_applyCells, rangeUpdate_eq_applyCells,
      rangeUpdate_eq_applyCells, rangeUpdate_eq_applyCells,
      rangeUpdate_eq_applyCells, rangeUpdate_eq_applyCells]
  rw [← applyCells_append, ← applyCells_append, ← applyCells_append,
      ← applyCells_append, ← applyCells_append]

theorem gridDash_twice (P1 P5 P6 : List (List Cell)) (x2 x3 x4 : Cell)
    (h1l : P1.length = 12) (h1w : ∀ r ∈ P1, r.length ≤ 3)
    (h5l : P5.length = 5) (h5w : ∀ r ∈ P5, r.length ≤ 2)
    (h6l : P6.length = 5) (h6w : ∀ r ∈ P6, r.length ≤ 2)
    (g : Grid) :
    gridDash P1 P5 P6 x2 x3 x4 (gridDash P1 P5 P6 x2 x3 x4 g)
      = gridDash P1 P5 P6 x2 x3 x4 g := by
  rw [gridDash_eq_applyCells, gridDash_eq_applyCells]
  exact applyCells_twice _
    (pairwise_dashAsg P1 P5 P6 x2 x3 x4 h1l h1w h5l h5w h6l h6w) g

theorem dashWrite_as_map (ty : Int) (md : List (String × MonthInfo)) (c24 : String)
    (t : Spreadsheet) :
    dashWrite ty md c24 t
      = ⟨mapFirstWs "Dashboard"
          (fun g => gridDash (monthlyPayload ty md)
            (top5Payload ((sortDescByVal (annCats ty md)).take 5))
            (monTop ty md c24) (Cell.num (annTAI ty md)) (Cell.num (annTAE ty md))
            (Cell.num (annTAI ty md - annTAE ty md)) g) t.sheets⟩ := by
  unfold dashWrite gridDash
  simp only [wsUpdate_as_map, mapFirstWs_comp]

theorem dashWrite_twice (ty : Int) (md : List (String × MonthInfo)) (c24 : String)
    (t : Spreadsheet) :
    dashWrite ty md c24 (dashWrite ty md c24 t) = dashWrite ty md c24 t := by
  rw [dashWrite_as_map, dashWrite_as_map]
  show (⟨mapFirstWs "Dashboard" _ (mapFirstWs "Dashboard" _ t.sheets)⟩ : Spreadsheet)
    = _
  rw [mapFirstWs_comp]
  refine congrArg Spreadsheet.mk
    (congrArg (fun f => mapFirstWs "Dashboard" f t.sheets) (funext fun g => ?_))
  exact gridDash_twice (monthlyPayload ty md)
    (top5Payload ((sortDescByVal (annCats ty md)).take 5)) (monTop ty md c24)
    (Cell.num (annTAI ty md)) (Cell.num (annTAE ty md))
    (Cell.num (annTAI ty md - annTAE ty md))
    rfl (monthlyPayload_width ty md)
    rfl (top5Payload_width _)
    (monTop_length ty md c24) (monTop_width ty md c24) g

theorem dashPass_idem (cy : Int) (s : Spreadsheet) :
    dashPass cy (dashPass cy s) = dashPass cy s := by
  have h1 : targetYear cy (dashPass cy s) = targetYear cy s :=
    targetYear_dashWrite cy _ _ _ s
  have h2 : get_monthly_sheets (dashPass cy s) = get_monthly_sheets s :=
    gms_dashWrite _ _ _ s
  have h3 : dashCell (dashPass cy s) 24 3 = dashCell s 24 3 :=
    c24_dashWrite _ _ _ s
  show dashWrite (targetYear cy (dashPass cy s)) (get_monthly_sheets (dashPass cy s))
      (cellStr (dashCell (dashPass cy s) 24 3)) (dashPass cy s) = dashPass cy s
  rw [h1, h2, h3]
  rw [show dashPass cy s = dashWrite (targetYear cy s) (get_monthly_sheets s)
      (cellStr (dashCell s 24 3)) s from rfl]
  exact dashWrite_twice _ _ _ s

theorem update_dashboard_some (cy : Int) (s : Spreadsheet) (w : Worksheet)
    (hf : findWs s "Dashboard" = some w) :
    update_dashboard_data cy noFaults s = (true, dashPass cy s) := by
  unfold update_dashboard_data
  rw [hf]
  show (true, update_top_expenditures cy noFaults
      (update_annual_totals cy noFaults
        (update_monthly_summary cy noFaults s (get_monthly_sheets s))
        (get_monthly_sheets s))
      (get_monthly_sheets s)) = (true, dashPass cy s)
  refine congrArg (Prod.mk true) ?_
  rw [ums_normal, uat_normal, ute_normal]
  rw [targetYear_wsUpdate cy s "B3:D14"
      (monthlyPayload (targetYear cy s) (get_monthly_sheets s))
      (by decide) (Or.inl (by decide))]
  rw [targetYear_wsUpdate cy _ "F7" _ (by decide) (Or.inl (by decide)),
      targetYear_wsUpdate cy _ "F5" _ (by decide) (Or.inl (by decide)),
      targetYear_wsUpdate cy _ "F3" _ (by decide) (Or.inl (by decide)),
      targetYear_wsUpdate cy s "B3:D14"
        (monthlyPayload (targetYear cy s) (get_monthly_sheets s))
        (by decide) (Or.inl (by decide))]
  rw [dashCell_wsUpdate_row_out _ "B18:C22"
        (top5Payload ((sortDescByVal
          (annCats (targetYear cy s) (get_monthly_sheets s))).take 5)) 24 3
        (by decide) (by decide) (Or.inr (show 18 + 5 ≤ 24 by decide)),
      dashCell_wsUpdate_row_out _ "F7"
        [[Cell.num (annTAI (targetYear cy s) (get_monthly_sheets s)
            - annTAE (targetYear cy s) (get_monthly_sheets s))]] 24 3
        (by decide) (by decide) (Or.inr (show 7 + 1 ≤ 24 by decide)),
      dashCell_wsUpdate_row_out _ "F5"
        [[Cell.num (annTAE (targetYear cy s) (get_monthly_sheets s))]] 24 3
        (by decide) (by decide) (Or.inr (show 5 + 1 ≤ 24 by decide)),
      dashCell_wsUpdate_row_out _ "F3"
        [[Cell.num (annTAI (targetYear cy s) (get_monthly_sheets s))]] 24 3
        (by decide) (by decide) (Or.inr (show 3 + 1 ≤ 24 by decide)),
      dashCell_wsUpdate_row_out _ "B3:D14"
        (monthlyPayload (targetYear cy s) (get_monthly_sheets s)) 24 3
        (by decide) (by decide) (Or.inr (show 3 + 12 ≤ 24 by decide))]
  rfl

/-! ## Claim C5 -/

/-- C5: dashboard recompute idempotence.  In the fault-free environment,
running `update_dashboard_data` a second time immediately after a first run
(so with no intervening writes to the monthly partitions or to the selector
cells `C1`/`C24`) leaves every dashboard cell with the same contents after
the second run as after the first. -/
theorem C5_recompute_idempotent (cy : Int) (s : Spreadsheet) (r c : Nat) :
    dashCell (update_dashboard_data cy noFaults
        ((update_dashboard_data cy noFaults s).2)).2 r c
      = dashCell ((update_dashboard_data cy noFaults s).2) r c := by
  cases hf : findWs s "Dashboard" with
  | none =>
    have h0 : update_dashboard_data cy noFaults s = (false, s) := by
      unfold update_dashboard_data
      rw [hf]
      rfl
    rw [h0]
    show dashCell (update_dashboard_data cy noFaults s).2 r c = dashCell s r c
    rw [h0]
  | some w =>
    have h1 : update_dashboard_data cy noFaults s = (true, dashPass cy s) :=
      update_dashboard_some cy s w hf
    obtain ⟨w2, hf2⟩ : ∃ w2, findWs (dashPass cy s) "Dashboard" = some w2 := by
      rw [show dashPass cy s = dashWrite (targetYear cy s) (get_monthly_sheets s)
          (cellStr (dashCell s 24 3)) s from rfl]
      unfold dashWrite
      rw [findWs_wsUpdate, findWs_wsUpdate, findWs_wsUpdate, findWs_wsUpdate,
          findWs_wsUpdate, findWs_wsUpdate, hf]
      exact ⟨_, rfl⟩
    have h2 : update_dashboard_data cy noFaults (dashPass cy s)
        = (true, dashPass cy (dashPass cy s)) :=
      update_dashboard_some cy (dashPass cy s) w2 hf2
    rw [h1]
    show dashCell (update_dashboard_data cy noFaults (dashPass cy s)).2 r c
      = dashCell (dashPass cy s) r c
    rw [h2]
    show dashCell (dashPass cy (dashPass cy s)) r c = dashCell (dashPass cy s) r c
    rw [dashPass_idem]

end Reff
